import Mathlib

/-!
Verification of the change-aware caching, diffing and output-validation core of
the AI-Sales pipeline. The Python sources are shallowly embedded: dictionaries
become association lists, JSON trees become an inductive `JsonVal`, SQLite rows
become association lists keyed by the cache key, and `datetime` values become
integer timestamps. Cryptographic hash functions (SHA-256 / MD5) are passed as
parameters; theorems that need collision-freeness assume the parameter is
injective.
-/

set_option maxHeartbeats 1000000

namespace AISales

/-! ## JSON value model (Python dict / list / scalar trees) -/

/-- A JSON-like Python value: the trees handled by `json.dumps` / `json.loads`
in the sources. Dictionaries are modelled as insertion-ordered association
lists with distinct keys (Python dict semantics). -/
inductive JsonVal : Type where
  | null : JsonVal
  | bool (b : Bool) : JsonVal
  | num (n : Int) : JsonVal
  | str (s : String) : JsonVal
  | arr (items : List JsonVal) : JsonVal
  | obj (entries : List (String × JsonVal)) : JsonVal
  deriving Repr, Inhabited

/-- A Python dictionary with string keys and JSON-like values. -/
abbrev PyDict := List (String × JsonVal)

mutual

/-- Structural (syntactic) equality test on `JsonVal`. -/
def jsonBeq : JsonVal → JsonVal → Bool
  | .null, .null => true
  | .bool a, .bool b => a == b
  | .num a, .num b => a == b
  | .str a, .str b => a == b
  | .arr xs, .arr ys => jsonBeqList xs ys
  | .obj xs, .obj ys => jsonBeqEntries xs ys
  | _, _ => false
termination_by structural a => a

/-- Structural equality on value lists. -/
def jsonBeqList : List JsonVal → List JsonVal → Bool
  | [], [] => true
  | x :: xs, y :: ys => jsonBeq x y && jsonBeqList xs ys
  | _, _ => false
termination_by structural xs => xs

/-- Structural equality on entry lists. -/
def jsonBeqEntries : PyDict → PyDict → Bool
  | [], [] => true
  | (k, v) :: xs, (k2, v2) :: ys => k == k2 && jsonBeq v v2 && jsonBeqEntries xs ys
  | _, _ => false
termination_by structural xs => xs

end

mutual

theorem jsonBeq_iff : ∀ a b : JsonVal, jsonBeq a b = true ↔ a = b
  | .null, .null => by simp [jsonBeq]
  | .bool a, .bool b => by simp [jsonBeq]
  | .num a, .num b => by simp [jsonBeq]
  | .str a, .str b => by simp [jsonBeq]
  | .arr xs, .arr ys => by simp [jsonBeq, jsonBeqList_iff xs ys]
  | .obj xs, .obj ys => by simp [jsonBeq, jsonBeqEntries_iff xs ys]
  | .null, .bool _ | .null, .num _ | .null, .str _ | .null, .arr _ | .null, .obj _
  | .bool _, .null | .bool _, .num _ | .bool _, .str _ | .bool _, .arr _ | .bool _, .obj _
  | .num _, .null | .num _, .bool _ | .num _, .str _ | .num _, .arr _ | .num _, .obj _
  | .str _, .null | .str _, .bool _ | .str _, .num _ | .str _, .arr _ | .str _, .obj _
  | .arr _, .null | .arr _, .bool _ | .arr _, .num _ | .arr _, .str _ | .arr _, .obj _
  | .obj _, .null | .obj _, .bool _ | .obj _, .num _ | .obj _, .str _ | .obj _, .arr _ => by
      simp [jsonBeq]

theorem jsonBeqList_iff : ∀ xs ys : List JsonVal, jsonBeqList xs ys = true ↔ xs = ys
  | [], [] => by simp [jsonBeqList]
  | x :: xs, y :: ys => by
      simp [jsonBeqList, jsonBeq_iff x y, jsonBeqList_iff xs ys]
  | [], _ :: _ => by simp [jsonBeqList]
  | _ :: _, [] => by simp [jsonBeqList]

theorem jsonBeqEntries_iff : ∀ xs ys : PyDict, jsonBeqEntries xs ys = true ↔ xs = ys
  | [], [] => by simp [jsonBeqEntries]
  | (k, v) :: xs, (k2, v2) :: ys => by
      simp [jsonBeqEntries, jsonBeq_iff v v2, jsonBeqEntries_iff xs ys, and_assoc]
  | [], _ :: _ => by simp [jsonBeqEntries]
  | _ :: _, [] => by simp [jsonBeqEntries]

end

instance : DecidableEq JsonVal := fun a b =>
  decidable_of_iff (jsonBeq a b = true) (jsonBeq_iff a b)

/-- `d.get(k)`: first binding of `k`, if any. -/
def dictGet (d : PyDict) (k : String) : Option JsonVal :=
  (d.find? (fun kv => kv.1 == k)).map (·.2)

/-- `d.get(k, dflt)`. -/
def dictGetD (d : PyDict) (k : String) (dflt : JsonVal) : JsonVal :=
  (dictGet d k).getD dflt

/-- Python truthiness of a JSON-like value (`if value:`). -/
def pyTruthy : JsonVal → Bool
  | .null => false
  | .bool b => b
  | .num n => n != 0
  | .str s => !(s == "")
  | .arr xs => !xs.isEmpty
  | .obj kvs => !kvs.isEmpty

/-! ### Key-sorting (the `sort_keys=True` of `json.dumps`)

Python's encoder emits each object's items sorted by key; the sort is modelled
with Mathlib's (stable) insertion sort under the lexicographic string order,
which coincides with Python's code-point comparison of `str`. -/

/-- Lexicographic code-point comparison of character lists: Python's `str`
ordering, which is what `sorted` and the JSON encoder use on keys. -/
def charListLe : List Char → List Char → Bool
  | [], _ => true
  | _ :: _, [] => false
  | a :: as, b :: bs =>
      if a.toNat < b.toNat then true
      else if b.toNat < a.toNat then false
      else charListLe as bs

/-- Python string `<=`. -/
def pyStrLe (a b : String) : Prop := charListLe a.data b.data = true

instance : DecidableRel pyStrLe := fun a b =>
  inferInstanceAs (Decidable (charListLe a.data b.data = true))

theorem charListLe_total : ∀ as bs, charListLe as bs = true ∨ charListLe bs as = true := by
  intro as
  induction as with
  | nil => intro bs; left; simp [charListLe]
  | cons a rest ih =>
    intro bs
    cases bs with
    | nil => right; simp [charListLe]
    | cons b bs =>
      rcases Nat.lt_trichotomy a.toNat b.toNat with h | h | h
      · left; simp [charListLe, h]
      · rcases ih bs with h2 | h2
        · left; simp [charListLe, h, h2]
        · right; simp [charListLe, h, h2]
      · right; simp [charListLe, h]

theorem charListLe_trans :
    ∀ as bs cs, charListLe as bs = true → charListLe bs cs = true →
      charListLe as cs = true := by
  intro as
  induction as with
  | nil => intro bs cs _ _; simp [charListLe]
  | cons a rest ih =>
    intro bs cs hab hbc
    cases bs with
    | nil => simp [charListLe] at hab
    | cons b bs =>
      cases cs with
      | nil => simp [charListLe] at hbc
      | cons c cs =>
        simp only [charListLe] at hab hbc ⊢
        rcases Nat.lt_trichotomy a.toNat b.toNat with h1 | h1 | h1
        · rcases Nat.lt_trichotomy b.toNat c.toNat with h2 | h2 | h2
          · rw [if_pos (by omega)]
          · rw [if_pos (by omega)]
          · rw [if_neg (by omega), if_pos h2] at hbc
            simp at hbc
        · rw [if_neg (by omega), if_neg (by omega)] at hab
          rcases Nat.lt_trichotomy b.toNat c.toNat with h2 | h2 | h2
          · rw [if_pos (by omega)]
          · rw [if_neg (by omega), if_neg (by omega)] at hbc ⊢
            exact ih bs cs hab hbc
          · rw [if_neg (by omega), if_pos h2] at hbc
            simp at hbc
        · rw [if_neg (by omega), if_pos h1] at hab
          simp at hab

/-- Order on dictionary entries: compare keys only. -/
def keyLe (a b : String × JsonVal) : Prop := pyStrLe a.1 b.1

instance : DecidableRel keyLe := fun a b => inferInstanceAs (Decidable (pyStrLe a.1 b.1))

instance : IsTotal (String × JsonVal) keyLe :=
  ⟨fun a b => charListLe_total a.1.data b.1.data⟩

instance : IsTrans (String × JsonVal) keyLe :=
  ⟨fun _ _ _ h1 h2 => charListLe_trans _ _ _ h1 h2⟩

/-- Sort a dictionary's entries by key (stable). -/
def sortKeys (l : PyDict) : PyDict := l.insertionSort keyLe

theorem sizeOf_of_perm {α : Type} [SizeOf α] {l1 l2 : List α} (h : l1.Perm l2) :
    sizeOf l1 = sizeOf l2 := by
  induction h with
  | nil => rfl
  | cons a _ ih => simp [ih]
  | swap a b l => simp; omega
  | trans _ _ ih1 ih2 => omega

theorem sizeOf_sortKeys (l : PyDict) : sizeOf (sortKeys l) = sizeOf l :=
  sizeOf_of_perm (List.perm_insertionSort keyLe l)

mutual

/-- Recursively sort every object's keys: the canonical form of a value.
`canon a = canon b` captures Python's order-insensitive `dict` equality
(Python dicts cannot carry duplicate keys). -/
def canon : JsonVal → JsonVal
  | .arr xs => .arr (canonList xs)
  | .obj kvs => .obj (sortKeys (canonEntries kvs))
  | v => v
termination_by structural v => v

/-- `canon` mapped over a list of values. -/
def canonList : List JsonVal → List JsonVal
  | [] => []
  | x :: xs => canon x :: canonList xs
termination_by structural xs => xs

/-- `canon` mapped over the values of an entry list. -/
def canonEntries : PyDict → PyDict
  | [] => []
  | (k, v) :: rest => (k, canon v) :: canonEntries rest
termination_by structural l => l

end

/-- Python equality on JSON-like values (`==`): order-insensitive on dicts. -/
def pyEq (a b : JsonVal) : Bool := canon a == canon b

/-! ### `json.dumps(..., sort_keys=True)` -/

/-- JSON string literal encoding (quotes, backslashes and the common control
escapes; exotic `\uXXXX` escapes for other control characters are kept as the
raw character, which does not affect any equality reasoning below). -/
def encodeJsonChar (c : Char) : String :=
  if c = '"' then "\\\""
  else if c = '\\' then "\\\\"
  else if c = '\n' then "\\n"
  else if c = '\t' then "\\t"
  else if c = '\r' then "\\r"
  else String.singleton c

/-- Encode a string as a JSON literal. -/
def encodeJsonString (s : String) : String :=
  "\"" ++ String.join (s.data.map encodeJsonChar) ++ "\""

mutual

/-- Serialize a value with entries emitted in the order given (the inner
emission loop of the JSON encoder, default separators `", "` and `": "`). -/
def rawDumps (v : JsonVal) : String :=
  match v with
  | .null => "null"
  | .bool true => "true"
  | .bool false => "false"
  | .num n => toString n
  | .str s => encodeJsonString s
  | .arr xs => "[" ++ String.intercalate ", " (rawDumpsList xs) ++ "]"
  | .obj kvs => "\x7b" ++ String.intercalate ", " (rawDumpsEntries kvs) ++ "\x7d"
termination_by structural v

/-- Serialized forms of the elements of an array. -/
def rawDumpsList (xs : List JsonVal) : List String :=
  match xs with
  | [] => []
  | x :: rest => rawDumps x :: rawDumpsList rest
termination_by structural xs

/-- Serialized `key: value` pieces of an object, in entry order. -/
def rawDumpsEntries (l : PyDict) : List String :=
  match l with
  | [] => []
  | (k, v) :: rest => (encodeJsonString k ++ ": " ++ rawDumps v) :: rawDumpsEntries rest
termination_by structural l

end

/-- Model of `json.dumps(value, sort_keys=True)`: emitting every object's
entries in sorted key order is exactly serializing the canonical form. -/
def dumps (v : JsonVal) : String := rawDumps (canon v)

/-- Model of Python `str()` on the values that reach f-strings and id fields:
scalars print the Python way; composite values print as canonical JSON text
(a deterministic stand-in for Python's `repr`). -/
def pyStr : JsonVal → String
  | .null => "None"
  | .bool true => "True"
  | .bool false => "False"
  | .num n => toString n
  | .str s => s
  | v => dumps v

/-! ## Volatile-field stripping (`SummaryCache._compute_data_hash`) -/

/-- The `IGNORED_FIELDS` set of `generate_deal_summary/cache/manager.py`. -/
def ignoredFields : List String :=
  ["updated_at", "updatedAt", "modified_at", "modifiedAt",
   "created_at", "createdAt", "last_fetched", "lastFetched",
   "last_modified", "lastModified", "timestamp", "fetched_at",
   "_metadata", "cache_time", "cacheTime",
   "metadata", "enrichment_timestamp", "duration_ms", "cache_hit_rate"]

mutual

/-- `clean_dict` of `_compute_data_hash`: recursively drop entries whose key is
in `ignoredFields`; recurse into lists; leave scalars alone. -/
def cleanJson : JsonVal → JsonVal
  | .obj kvs => .obj (cleanEntries kvs)
  | .arr xs => .arr (cleanList xs)
  | v => v
termination_by structural v => v

/-- `clean_dict` mapped over the elements of a list. -/
def cleanList : List JsonVal → List JsonVal
  | [] => []
  | x :: xs => cleanJson x :: cleanList xs
termination_by structural xs => xs

/-- `clean_dict` applied to a dictionary's items, dropping ignored keys. -/
def cleanEntries : PyDict → PyDict
  | [] => []
  | (k, v) :: rest =>
      if k ∈ ignoredFields then cleanEntries rest
      else (k, cleanJson v) :: cleanEntries rest
termination_by structural l => l

end

/-- `SummaryCache._compute_data_hash`: clean the enriched dict, serialize it
with sorted keys and hash the text. The SHA-256 step is the `sha256hex`
parameter (any fixed function preserves equal inputs, which is all the
digest-insensitivity property needs). -/
def computeDataHash (sha256hex : String → String) (enriched_data : PyDict) : String :=
  sha256hex (dumps (cleanJson (.obj enriched_data)))

/-- `SummaryCache._compute_prompt_hash`: MD5 (truncated to 8 hex chars) of the
prompt text, abstracted as the `md5trunc` parameter. -/
def computePromptHash (md5trunc : String → String) (prompt_template : String) : String :=
  md5trunc prompt_template

/-! ### `dumps` only depends on the canonical form -/

theorem canonList_eq_map (xs : List JsonVal) : canonList xs = xs.map canon := by
  induction xs with
  | nil => simp [canonList]
  | cons x rest ih => simp [canonList, ih]

theorem canonEntries_eq_map (l : PyDict) :
    canonEntries l = l.map (fun kv => (kv.1, canon kv.2)) := by
  induction l with
  | nil => simp [canonEntries]
  | cons kv rest ih => cases kv; simp [canonEntries, ih]

/-- Sorting twice is sorting once. -/
theorem sortKeys_idem (l : PyDict) : sortKeys (sortKeys l) = sortKeys l :=
  List.Sorted.insertionSort_eq (List.sorted_insertionSort keyLe l)

/-- Key-sorting commutes with mapping over values. -/
theorem sortKeys_map_snd (f : JsonVal → JsonVal) (l : PyDict) :
    (sortKeys l).map (fun kv => (kv.1, f kv.2)) =
      sortKeys (l.map (fun kv => (kv.1, f kv.2))) :=
  List.map_insertionSort keyLe keyLe _ l (fun _ _ _ _ => Iff.rfl)

/-- Canonicalization is idempotent. -/
theorem canon_idem : (v : JsonVal) → canon (canon v) = canon v
  | .null => rfl
  | .bool _ => rfl
  | .num _ => rfl
  | .str _ => rfl
  | .arr xs => by
      have ih : ∀ x ∈ xs, canon (canon x) = canon x := fun x _ => canon_idem x
      have hmap : List.map (canon ∘ canon) xs = List.map canon xs :=
        List.map_congr_left (fun x hx => ih x hx)
      simp only [canon, canonList_eq_map, List.map_map, hmap]
  | .obj kvs => by
      have ih : ∀ kv ∈ kvs, canon (canon kv.2) = canon kv.2 :=
        fun kv _ => canon_idem kv.2
      have hmap :
          List.map ((fun kv : String × JsonVal => (kv.1, canon kv.2)) ∘
            (fun kv : String × JsonVal => (kv.1, canon kv.2))) (sortKeys kvs) =
          List.map (fun kv : String × JsonVal => (kv.1, canon kv.2)) (sortKeys kvs) := by
        refine List.map_congr_left (fun kv hkv => ?_)
        have hm : kv ∈ kvs := by simpa [sortKeys] using hkv
        simp [ih kv hm]
      simp only [canon, canonEntries_eq_map, ← sortKeys_map_snd, sortKeys_idem,
        List.map_map, hmap]
termination_by v => sizeOf v
decreasing_by
  all_goals first
    | (calc sizeOf x < sizeOf xs := List.sizeOf_lt_of_mem (by assumption)
        _ < sizeOf (JsonVal.arr xs) := by simp <;> omega)
    | (rename_i kv hkv
       calc sizeOf kv.2 < sizeOf kv := by obtain ⟨k, v⟩ := kv; simp <;> omega
        _ < sizeOf kvs := List.sizeOf_lt_of_mem hkv
        _ < sizeOf (JsonVal.obj kvs) := by simp <;> omega)

/-- Serialization is invariant under canonicalization: `json.dumps` with
`sort_keys=True` already emits the canonical order at every depth. -/
theorem dumps_canon (v : JsonVal) : dumps (canon v) = dumps v := by
  unfold dumps
  rw [canon_idem]

/-! ## Diff engine (`sales_engagement_action/utils/diff.py`)

Python `set` values are modelled as deduplicated lists (`List.dedup`); set
iteration order is unspecified in Python, so the model's deterministic order
is one fixed representative of it. -/

/-- Lookup with default in a string-keyed association list (`d.get(k, dflt)`). -/
def assocGetD {α : Type} (l : List (String × α)) (k : String) (dflt : α) : α :=
  ((l.find? (fun kv => kv.1 == k)).map (·.2)).getD dflt

/-- Set difference on deduplicated lists (`A - B`). -/
def pySetDiff {α : Type} [DecidableEq α] (a b : List α) : List α :=
  a.filter (fun x => !b.contains x)

/-- Set intersection on deduplicated lists (`A & B`). -/
def pySetInter {α : Type} [DecidableEq α] (a b : List α) : List α :=
  a.filter (fun x => b.contains x)

/-- Result of `_compare_records`. -/
structure RecordChanges where
  changed_fields : List String
  details : List (String × JsonVal × JsonVal)
  deriving DecidableEq

/-- `set(old_record.keys()) | set(new_record.keys())`, as a deduplicated list. -/
def allRecordKeys (old_record new_record : PyDict) : List String :=
  (old_record.map Prod.fst ++ new_record.map Prod.fst).dedup

/-- Keys whose values differ between the two records. `record.get(key)`
defaults to `None`, and a stored JSON `null` also reads back as `None`, so a
missing key and an explicit null compare equal — hence the `.null` default. -/
def changedFields (old_record new_record : PyDict) : List String :=
  (allRecordKeys old_record new_record).filter
    (fun k => !pyEq (dictGetD old_record k .null) (dictGetD new_record k .null))

/-- `_compare_records`: the changed keys with their old/new values, or `None`
when no field changed. -/
def compareRecords (old_record new_record : PyDict) : Option RecordChanges :=
  let ch := changedFields old_record new_record
  if ch.isEmpty then none
  else some ⟨ch, ch.map
    (fun k => (k, dictGetD old_record k .null, dictGetD new_record k .null))⟩

/-- Result of `_compare_entity_lists`. Ids live in `JsonVal` because the
`email` fallback returns the raw field value while the `id` branch returns its
`str()`. -/
structure EntityDiff where
  has_changes : Bool
  summary : String
  added : List JsonVal
  removed : List JsonVal
  modified : List JsonVal
  deriving DecidableEq

/-- `_get_entity_id`: `str(entity["id"])`, else the raw `email` value, else a
structural fallback. The fallback models `str(hash(json.dumps(entity,
sort_keys=True)))` by the canonical serialization itself: deterministic, and
equal exactly when the hashed text is equal (ignoring hash collisions). -/
def getEntityId (entity : PyDict) : JsonVal :=
  match dictGet entity "id" with
  | some v => .str (pyStr v)
  | none =>
    match dictGet entity "email" with
    | some v => v
    | none => .str (dumps (.obj entity))

/-- The membership test `_get_entity_id(item) == entity_id`. -/
def entityIdMatches (eid : JsonVal) (item : PyDict) : Bool :=
  pyEq (getEntityId item) eid

/-- Is `entity_id` reported as modified: both sides' first matching items are
truthy (non-empty dicts) and differ under Python equality. -/
def entityModified (old_list new_list : List PyDict) (eid : JsonVal) : Bool :=
  match old_list.find? (entityIdMatches eid), new_list.find? (entityIdMatches eid) with
  | some old_item, some new_item =>
      pyTruthy (.obj old_item) && pyTruthy (.obj new_item) &&
        !(pyEq (.obj old_item) (.obj new_item))
  | _, _ => false

/-- `_compare_entity_lists`. -/
def compareEntityLists (old_list new_list : List PyDict) : EntityDiff :=
  let oldIds : List JsonVal := (old_list.map getEntityId).dedup
  let newIds : List JsonVal := (new_list.map getEntityId).dedup
  let added := pySetDiff newIds oldIds
  let removed := pySetDiff oldIds newIds
  let common := pySetInter oldIds newIds
  let modified := common.filter (entityModified old_list new_list)
  let parts : List String :=
    (if added.isEmpty then [] else [toString added.length ++ " added"]) ++
    (if removed.isEmpty then [] else [toString removed.length ++ " removed"]) ++
    (if modified.isEmpty then [] else [toString modified.length ++ " modified"])
  { has_changes := !added.isEmpty || !removed.isEmpty || !modified.isEmpty
    summary := if parts.isEmpty then "No changes" else String.intercalate ", " parts
    added := added
    removed := removed
    modified := modified }

/-- Result of `_compare_interaction_history`. -/
structure HistoryDiff where
  has_changes : Bool
  summary_items : List String
  deriving DecidableEq

/-- `{item.get("id") for item in items if item.get("id")}`: the truthy ids. -/
def interactionIds (items : List PyDict) : List JsonVal :=
  (items.filterMap (fun it =>
    match dictGet it "id" with
    | some v => if pyTruthy v then some v else none
    | none => none)).dedup

/-- The two summary items a single interaction type can contribute. -/
def historyTypeItems (old_history new_history : List (String × List PyDict))
    (t : String) : List String :=
  let oldIds := interactionIds (assocGetD old_history t [])
  let newIds := interactionIds (assocGetD new_history t [])
  let added := pySetDiff newIds oldIds
  let removed := pySetDiff oldIds newIds
  (if added.isEmpty then [] else [toString added.length ++ " new " ++ t]) ++
  (if removed.isEmpty then [] else [toString removed.length ++ " " ++ t ++ " removed"])

/-- `_compare_interaction_history` over `notes` then `tasks`. -/
def compareInteractionHistory
    (old_history new_history : List (String × List PyDict)) : HistoryDiff :=
  let items := historyTypeItems old_history new_history "notes" ++
    historyTypeItems old_history new_history "tasks"
  { has_changes := !items.isEmpty, summary_items := items }

/-- The enriched-data snapshot shape `compute_enriched_data_diff` reads:
`primary_record` (a dict), `related_entities` (dict of entity lists) and
`interaction_history` (dict of item lists); `data.get(key, {})` folds a
missing key into the empty dict. -/
structure EnrichedData where
  primary_record : PyDict
  related_entities : List (String × List PyDict)
  interaction_history : List (String × List PyDict)
  deriving DecidableEq

/-- The structured diff `compute_enriched_data_diff` returns: the `summary`
line list plus the `details` sub-dicts, keyed here by dedicated fields. -/
structure DiffResult where
  summary : List String
  primary_detail : Option RecordChanges
  entity_details : List (String × EntityDiff)
  history_detail : Option HistoryDiff
  deriving DecidableEq

/-- The per-entity-type contribution to details and summary. -/
def entityTypePart (old_data new_data : EnrichedData) (t : String) :
    Option (String × EntityDiff) × List String :=
  let ed := compareEntityLists (assocGetD old_data.related_entities t [])
    (assocGetD new_data.related_entities t [])
  if ed.has_changes then (some (t, ed), [t.capitalize ++ ": " ++ ed.summary])
  else (none, [])

/-- `compute_enriched_data_diff`. -/
def computeEnrichedDataDiff (old_data new_data : EnrichedData) : DiffResult :=
  let old_primary := old_data.primary_record
  let new_primary := new_data.primary_record
  let primaryPart : Option RecordChanges × List String :=
    if pyEq (.obj old_primary) (.obj new_primary) then (none, [])
    else
      match compareRecords old_primary new_primary with
      | some ch => (some ch, ["Primary record updated: " ++
          String.intercalate ", " ch.changed_fields])
      | none => (none, [])
  let pc := entityTypePart old_data new_data "contacts"
  let pm := entityTypePart old_data new_data "companies"
  let pd := entityTypePart old_data new_data "deals"
  let hd := compareInteractionHistory old_data.interaction_history
    new_data.interaction_history
  let historyPart : Option HistoryDiff × List String :=
    if hd.has_changes then (some hd, hd.summary_items) else (none, [])
  let summary := primaryPart.2 ++ pc.2 ++ pm.2 ++ pd.2 ++ historyPart.2
  { summary := if summary.isEmpty then ["No significant changes detected"] else summary
    primary_detail := primaryPart.1
    entity_details := pc.1.toList ++ pm.1.toList ++ pd.1.toList
    history_detail := historyPart.1 }

/-- The empty diff: no details, single canned summary line. -/
def noChangesDiff : DiffResult :=
  { summary := ["No significant changes detected"]
    primary_detail := none
    entity_details := []
    history_detail := none }

/-! ## Caches

SQLite tables become association lists keyed by `cache_key` (`PRIMARY KEY`:
at most one row per key; `INSERT OR REPLACE` is modelled by `upsert`).
`datetime` values become integer epoch seconds. The SHA-256 / MD5 digests are
function parameters (`sha256hex`, `md5trunc`, `h`). -/

/-- `INSERT OR REPLACE` into a keyed store. -/
def upsert {α : Type} (store : List (String × α)) (k : String) (v : α) :
    List (String × α) :=
  (k, v) :: store.filter (fun r => !(r.1 == k))

/-- Keyed lookup (`SELECT ... WHERE cache_key = ? ... LIMIT 1`). -/
def storeFind {α : Type} (store : List (String × α)) (k : String) : Option α :=
  (store.find? (fun r => r.1 == k)).map (·.2)

/-- The shared shape of a cache-lookup outcome in both AI caches:
`None` = miss, `some (artifact, True, none)` = fresh,
`some (artifact, False, some previous_snapshot)` = stale. -/
abbrev CacheOutcome := Option (JsonVal × Bool × Option PyDict)

/-- Did the lookup come back fresh? -/
def lookupIsFresh : CacheOutcome → Bool
  | some (_, true, _) => true
  | _ => false

/-! ### `SummaryCache` (`generate_deal_summary/cache/manager.py`) -/

/-- A row of the `summary_cache` table. -/
structure SumRow where
  enriched_data_hash : String
  prompt_hash : String
  enriched_data_json : PyDict
  summary_json : JsonVal
  generated_at : Int
  deriving DecidableEq

/-- `SummaryCache._get_cache_key`: `f"{primary_type}:{entity_id}:{prompt_hash}"`. -/
def summaryCacheKey (enriched_data : PyDict) (prompt_hash : String) : String :=
  let primary_type := dictGetD enriched_data "primary_type" (.str "unknown")
  let primary_record : PyDict :=
    match dictGet enriched_data "primary_record" with
    | some (.obj kvs) => kvs
    | _ => []
  let entity_id : JsonVal :=
    if primary_type = .str "deal" then dictGetD primary_record "id" (.str "unknown")
    else if primary_type = .str "contact" then
      .str (pyStr (dictGetD primary_record "id"
        (dictGetD primary_record "email" (.str "unknown"))))
    else if primary_type = .str "company" then dictGetD primary_record "id" (.str "unknown")
    else .str "unknown"
  pyStr primary_type ++ ":" ++ pyStr entity_id ++ ":" ++ prompt_hash

/-- `SummaryCache.get_cached_summary` (TTL in hours; `age < timedelta(hours=ttl)`
becomes `now - generated_at < ttl_hours * 3600`). -/
def getCachedSummary (sha256hex md5trunc : String → String)
    (store : List (String × SumRow)) (now ttl_hours : Int)
    (enriched_data : PyDict) (prompt_template : String) : CacheOutcome :=
  let prompt_hash := computePromptHash md5trunc prompt_template
  let cache_key := summaryCacheKey enriched_data prompt_hash
  let data_hash := computeDataHash sha256hex enriched_data
  match storeFind store cache_key with
  | none => none
  | some row =>
    let data_unchanged := row.enriched_data_hash == data_hash
    let is_fresh := now - row.generated_at < ttl_hours * 3600
    if data_unchanged && is_fresh then some (row.summary_json, true, none)
    else some (row.summary_json, false, some row.enriched_data_json)

/-- `SummaryCache.save_summary`. -/
def saveSummary (sha256hex md5trunc : String → String)
    (store : List (String × SumRow)) (now : Int)
    (enriched_data : PyDict) (summary : JsonVal) (prompt_template : String) :
    List (String × SumRow) :=
  let prompt_hash := computePromptHash md5trunc prompt_template
  upsert store (summaryCacheKey enriched_data prompt_hash)
    ⟨computeDataHash sha256hex enriched_data, prompt_hash, enriched_data, summary, now⟩

/-! ### `RecommendationCache` (`src/brevo_sales/recommendations/cache.py`) -/

/-- `RecommendationCache._compute_hash` on a string input (used directly). -/
def computeHashStr (h : String → String) (s : String) : String := h s

/-- `RecommendationCache._compute_hash` on a dict input
(`json.dumps(data, sort_keys=True)` then hash). -/
def computeHashJson (h : String → String) (d : PyDict) : String := h (dumps (.obj d))

/-- The top-level `metadata`-stripped enriched data
(`{k: v for k, v in enriched_data.items() if k != 'metadata'}`). -/
def enrichedStable (enriched_data : PyDict) : PyDict :=
  enriched_data.filter (fun kv => !(kv.1 == "metadata"))

/-- Python truthiness of the optional campaign-context string
(`if campaign_context:`): present and non-empty. -/
def optStrTruthy : Option String → Bool
  | some s => !(s == "")
  | none => false

/-- `RecommendationCache._get_cache_key`. -/
def recCacheKey (deal_id prompt_hash company_context_hash : String)
    (campaign_context_hash : Option String) : String :=
  let base := "deal:" ++ deal_id ++ ":prompt:" ++ prompt_hash ++
    ":context:" ++ company_context_hash
  match campaign_context_hash with
  | some ch => if ch == "" then base else base ++ ":campaign:" ++ ch
  | none => base

/-- A row of the `recommendation_cache` table. -/
structure RecRow where
  enriched_data_hash : String
  summary_hash : Option String
  prompt_hash : String
  company_context_hash : String
  campaign_context_hash : Option String
  enriched_data_json : PyDict
  recommendation_json : JsonVal
  generated_at : Int
  expires_at : Int
  deriving DecidableEq

/-- The campaign dependency digest:
`self._compute_hash(campaign_context) if campaign_context else None`. -/
def recCampaignHash (h : String → String) (campaign_context : Option String) :
    Option String :=
  if optStrTruthy campaign_context then some (h (campaign_context.getD "")) else none

/-- `RecommendationCache.get_cached_recommendation`. The `summary` argument is
deliberately not part of the freshness test (see the source comment); TTL
expiry is the strict `datetime.now() > expires_at`. -/
def getCachedRecommendation (h : String → String)
    (store : List (String × RecRow)) (now : Int)
    (deal_id : String) (enriched_data : PyDict) (summary : Option String)
    (prompt_template company_context : String)
    (campaign_context : Option String) : CacheOutcome :=
  let enriched_hash := computeHashJson h (enrichedStable enriched_data)
  let prompt_hash := computeHashStr h prompt_template
  let context_hash := computeHashStr h company_context
  let campaign_hash := recCampaignHash h campaign_context
  let cache_key := recCacheKey deal_id prompt_hash context_hash campaign_hash
  match storeFind store cache_key with
  | none => none
  | some row =>
    let hashes_match :=
      row.enriched_data_hash == enriched_hash &&
      row.prompt_hash == prompt_hash &&
      row.company_context_hash == context_hash &&
      (if optStrTruthy campaign_context
       then row.campaign_context_hash == campaign_hash else true)
    let is_expired := now > row.expires_at
    if hashes_match && !is_expired then some (row.recommendation_json, true, none)
    else some (row.recommendation_json, false, some row.enriched_data_json)

/-- `RecommendationCache.save_recommendation` (TTL in minutes). -/
def saveRecommendation (h : String → String)
    (store : List (String × RecRow)) (now ttl_minutes : Int)
    (deal_id : String) (enriched_data : PyDict) (summary : Option String)
    (prompt_template company_context : String) (campaign_context : Option String)
    (recommendation : JsonVal) : List (String × RecRow) :=
  let enriched_hash := computeHashJson h (enrichedStable enriched_data)
  let prompt_hash := computeHashStr h prompt_template
  let context_hash := computeHashStr h company_context
  let campaign_hash := recCampaignHash h campaign_context
  let cache_key := recCacheKey deal_id prompt_hash context_hash campaign_hash
  upsert store cache_key
    ⟨enriched_hash, summary, prompt_hash, context_hash, campaign_hash,
      enriched_data, recommendation, now, now + ttl_minutes * 60⟩

/-! ### Raw-entity `CacheManager` (`brevo_data_gatherer/cache/manager.py`) -/

/-- A row of the gatherer's `cache` table. -/
structure GatherRow where
  source : String
  entity_type : String
  entity_id : String
  data_json : JsonVal
  data_hash : String
  ttl_minutes : Int
  expires_at : Int
  created_at : Int
  deriving DecidableEq

/-- `CacheManager._make_cache_key`. -/
def gatherCacheKey (source entity_type entity_id : String) : String :=
  source ++ ":" ++ entity_type ++ ":" ++ entity_id

/-- `CacheManager.get`: the row only if present and `expires_at > now`;
an expired or absent row is `None` (a bare miss — no stale artifact is
returned and no digests are compared at lookup time). The result tuple is
`(data, hash, cached_at, expires_at)`. -/
def gatherGet (store : List (String × GatherRow)) (now : Int)
    (source entity_type entity_id : String) :
    Option (JsonVal × String × Int × Int) :=
  match storeFind store (gatherCacheKey source entity_type entity_id) with
  | some row =>
      if row.expires_at > now
      then some (row.data_json, row.data_hash, row.created_at, row.expires_at)
      else none
  | none => none

/-! ## Helper lemmas -/

theorem pyEq_refl (v : JsonVal) : pyEq v v = true := by simp [pyEq]

theorem pySetDiff_self {α : Type} [DecidableEq α] (l : List α) : pySetDiff l l = [] := by
  rw [pySetDiff, List.filter_eq_nil]
  intro a ha
  simp [ha]

theorem entityModified_self (l : List PyDict) (eid : JsonVal) :
    entityModified l l eid = false := by
  unfold entityModified
  cases h : l.find? (entityIdMatches eid) with
  | none => simp
  | some item => simp [pyEq_refl]

theorem compareEntityLists_self (l : List PyDict) :
    compareEntityLists l l = ⟨false, "No changes", [], [], []⟩ := by
  unfold compareEntityLists
  simp [pySetDiff_self, entityModified_self, List.filter_eq_nil]

theorem compareInteractionHistory_self (h : List (String × List PyDict)) :
    compareInteractionHistory h h = ⟨false, []⟩ := by
  simp [compareInteractionHistory, historyTypeItems, pySetDiff_self]

theorem entityTypePart_self (s : EnrichedData) (t : String) :
    entityTypePart s s t = (none, []) := by
  simp [entityTypePart, compareEntityLists_self]

/-! ## Action models (`src/brevo_sales/recommendations/action_models.py`)

Pydantic v2 semantics are modelled as: every field is validated independently
(built-in constraints first, then the registered field validators, in field
declaration order) and the errors are collected into one list; the
`mode='after'` model validators run only when no field error occurred.
`datetime` fields are carried as ISO strings (their format validation plays no
role in any claim). -/

instance {γ α : Type} [DecidableEq γ] [DecidableEq α] : DecidableEq (Except γ α) :=
  fun a b =>
    match a, b with
    | .error x, .error y =>
      if h : x = y then .isTrue (by rw [h])
      else .isFalse (fun hc => h (by injection hc))
    | .ok x, .ok y =>
      if h : x = y then .isTrue (by rw [h])
      else .isFalse (fun hc => h (by injection hc))
    | .error _, .ok _ => .isFalse (fun hc => Except.noConfusion hc)
    | .ok _, .error _ => .isFalse (fun hc => Except.noConfusion hc)

/-- Is `c` in the `[A-Z_]` class under `re.IGNORECASE`: a letter or `_`. -/
def isAZu (c : Char) : Bool :=
  (65 ≤ c.toNat && c.toNat ≤ 90) || (97 ≤ c.toNat && c.toNat ≤ 122) || c = '_'

/-- A word character for `\b` boundaries: `[A-Za-z0-9_]`. -/
def isWordChar (c : Char) : Bool := isAZu c || (48 ≤ c.toNat && c.toNat ≤ 57)

/-- ASCII lower-casing (the case folding `re.IGNORECASE` performs here). -/
def lowerChar (c : Char) : Char :=
  if 65 ≤ c.toNat && c.toNat ≤ 90 then Char.ofNat (c.toNat + 32) else c

/-- ASCII `str.lower()`. -/
def lowerStr (s : String) : String := ⟨s.data.map lowerChar⟩

/-- Python whitespace (`\s` over ASCII). -/
def isPyWs (c : Char) : Bool :=
  c = ' ' || c = '\t' || c = '\n' || c = '\r' || c = '\x0b' || c = '\x0c'

/-- Python `str.strip()`. -/
def pyStrip (s : String) : String :=
  ⟨((s.data.dropWhile isPyWs).reverse.dropWhile isPyWs).reverse⟩

/-- Does `(token)close` match at the start: `([A-Za-z_]+|\.\.\.)` then `cl`. -/
def bracketTokenAt (cl : Char) (rest : List Char) : Bool :=
  (match rest with
   | '.' :: '.' :: '.' :: c :: _ => c = cl
   | _ => false) ||
  (let span := rest.takeWhile isAZu
   !span.isEmpty &&
    (match rest.drop span.length with
     | c :: _ => c = cl
     | [] => false))

/-- `re.search` for `op([A-Za-z_]+|\.\.\.)cl` (patterns 1-3 of
`has_placeholders`, with IGNORECASE folded into the character class). -/
def hasBracketToken (op cl : Char) : List Char → Bool
  | [] => false
  | c :: rest => (c = op && bracketTokenAt cl rest) || hasBracketToken op cl rest

/-- `re.search` for `\x7b\x7b[^\x7d]+\x7d\x7d` (`{{variable}}`). -/
def hasDoubleBrace : List Char → Bool
  | [] => false
  | c1 :: rest =>
      (c1 = '\x7b' &&
        (match rest with
         | c2 :: rest2 =>
            c2 = '\x7b' &&
              (let span := rest2.takeWhile (fun c => !(c = '\x7d'))
               !span.isEmpty &&
                (match rest2.drop span.length with
                 | '\x7d' :: '\x7d' :: _ => true
                 | _ => false))
         | [] => false)) || hasDoubleBrace rest

/-- `re.search` for `\$\x7b[^\x7d]+\x7d` (`${variable}`). -/
def hasDollarBrace : List Char → Bool
  | [] => false
  | c1 :: rest =>
      (c1 = '$' &&
        (match rest with
         | c2 :: rest2 =>
            c2 = '\x7b' &&
              (let span := rest2.takeWhile (fun c => !(c = '\x7d'))
               !span.isEmpty &&
                (match rest2.drop span.length with
                 | '\x7d' :: _ => true
                 | _ => false))
         | [] => false)) || hasDollarBrace rest

/-- Case-insensitive match of `w` at the start; returns the rest on success. -/
def matchCI : List Char → List Char → Option (List Char)
  | [], s => some s
  | _ :: _, [] => none
  | w0 :: wr, c :: cr => if lowerChar c = lowerChar w0 then matchCI wr cr else none

/-- Does the word `w` match here with `\b` boundaries on both sides
(`prev` is the character before this position, if any). -/
def wordTokenHere (w : List Char) (prev : Option Char) (s : List Char) : Bool :=
  (match prev with
   | some c => !isWordChar c
   | none => true) &&
  (match matchCI w s with
   | some rest =>
      match rest with
      | [] => true
      | c :: _ => !isWordChar c
   | none => false)

/-- Scan for `\bw\b` (IGNORECASE), tracking the previous character. -/
def hasWordTokenAux (w : List Char) (prev : Option Char) : List Char → Bool
  | [] => false
  | c :: rest => wordTokenHere w prev (c :: rest) || hasWordTokenAux w (some c) rest

/-- `re.search` for `\[WORD[^\]]*\]` (IGNORECASE): patterns 9-10. -/
def hasBracketWord (w : List Char) : List Char → Bool
  | [] => false
  | c :: rest =>
      (c = '[' &&
        (match matchCI w rest with
         | some rest2 =>
            (let span := rest2.takeWhile (fun c => !(c = ']'))
             match rest2.drop span.length with
             | ']' :: _ => true
             | _ => false)
         | none => false)) || hasBracketWord w rest

/-- `has_placeholders`: any of the ten placeholder patterns matches. -/
def hasPlaceholders (text : String) : Bool :=
  let s := text.data
  hasBracketToken '[' ']' s ||
  hasBracketToken '\x7b' '\x7d' s ||
  hasBracketToken '<' '>' s ||
  hasDoubleBrace s ||
  hasDollarBrace s ||
  hasWordTokenAux "todo".data none s ||
  hasWordTokenAux "tbd".data none s ||
  hasWordTokenAux "xxx".data none s ||
  hasBracketWord "insert".data s ||
  hasBracketWord "fill".data s

/-- `v[:100]`. -/
def strTake (s : String) (n : Nat) : String := ⟨s.data.take n⟩

/-- The `ValueError` text of the shared `no_placeholders` field validators. -/
def placeholderMsg (v : String) : String :=
  "Field contains placeholders: " ++ strTake v 100 ++ "..."

/-- Simplified model of the `EmailStr` syntactic check (`email-validator`):
one `@`, non-empty local part, domain with a dot and no spaces. -/
def isEmailStr (s : String) : Bool :=
  let cs := s.data
  (cs.filter (fun c => c = '@')).length = 1 &&
  (cs.takeWhile (fun c => !(c = '@'))).length ≥ 1 &&
  (let dom := (cs.dropWhile (fun c => !(c = '@'))).drop 1
   dom.length ≥ 3 && dom.contains '.' && !cs.contains ' ')

/-- Simplified model of the `HttpUrl` check: an `http(s)://` URL. -/
def isHttpUrl (s : String) : Bool :=
  ("http://".data.isPrefixOf s.data && s.length > 7) ||
  ("https://".data.isPrefixOf s.data && s.length > 8)

/-- Enum `ActionStatus`. -/
inductive ActionStatus : Type where
  | pending | prerequisites_incomplete | ready | executing | completed | failed
  deriving DecidableEq, Repr

/-- Enum `PrerequisiteStatus`. -/
inductive PrerequisiteStatus : Type where
  | todo | in_progress | completed | blocked
  deriving DecidableEq, Repr

/-- A validated `Prerequisite`. -/
structure Prerequisite where
  id : String
  task : String
  assignee : Option String
  deadline : Option String
  status : PrerequisiteStatus
  blocking : Bool
  deriving DecidableEq, Repr

/-- Field errors of `Prerequisite` (task: `min_length=10`, then the
`task_must_not_have_placeholders` validator). -/
def prerequisiteErrors (task : String) : List String :=
  if task.length < 10 then ["String should have at least 10 characters"]
  else if hasPlaceholders task then ["Task description contains placeholders: " ++ task]
  else []

/-- Construct a `Prerequisite` (status defaults to `todo`, blocking to `True`
at call sites). -/
def mkPrerequisite (id task : String) (assignee deadline : Option String)
    (status : PrerequisiteStatus) (blocking : Bool) :
    Except (List String) Prerequisite :=
  let errs := prerequisiteErrors task
  if errs.isEmpty then .ok ⟨id, task, assignee, deadline, status, blocking⟩
  else .error errs

/-- A validated `EmailAction`. -/
structure EmailAction where
  from_email : String
  from_name : String
  to_email : String
  to_name : String
  subject : String
  content : String
  cc_emails : List String
  bcc_emails : List String
  attachments : List String
  deriving DecidableEq, Repr

/-- The raw field inputs of an `EmailAction`. -/
structure EmailFields where
  from_email : String
  from_name : String
  to_email : String
  to_name : String
  subject : String
  content : String
  cc_emails : List String
  bcc_emails : List String
  attachments : List String
  deriving DecidableEq, Repr

/-- A string field with a `min_length` constraint and the `no_placeholders`
validator: the constraint error, else the placeholder error, else nothing. -/
def strFieldErrors (minLen : Nat) (v : String) : List String :=
  if v.length < minLen then
    ["String should have at least " ++ toString minLen ++ " characters"]
  else if hasPlaceholders v then [placeholderMsg v]
  else []

/-- All field errors of an `EmailAction`, in field declaration order. -/
def emailFieldErrors (f : EmailFields) : List String :=
  (if isEmailStr f.from_email then []
   else ["value is not a valid email address: " ++ f.from_email]) ++
  strFieldErrors 1 f.from_name ++
  (if isEmailStr f.to_email then []
   else ["value is not a valid email address: " ++ f.to_email]) ++
  strFieldErrors 1 f.to_name ++
  strFieldErrors 5 f.subject ++
  strFieldErrors 50 f.content ++
  (f.cc_emails.filterMap (fun e =>
    if isEmailStr e then none else some ("value is not a valid email address: " ++ e))) ++
  (f.bcc_emails.filterMap (fun e =>
    if isEmailStr e then none else some ("value is not a valid email address: " ++ e))) ++
  (f.attachments.filterMap (fun u =>
    if isHttpUrl u then none else some ("URL should match format http or https: " ++ u)))

/-- The deny-list of `validate_email_completeness`. -/
def genericSubjects : List String := ["hello", "hi", "follow up", "checking in"]

/-- Construct an `EmailAction`: field validation, then the
`validate_email_completeness` model validator. -/
def mkEmailAction (f : EmailFields) : Except (List String) EmailAction :=
  let errs := emailFieldErrors f
  if errs.isEmpty then
    if pyStrip (lowerStr f.subject) ∈ genericSubjects then
      .error ["Subject line too generic: '" ++ f.subject ++ "'"]
    else .ok ⟨f.from_email, f.from_name, f.to_email, f.to_name, f.subject, f.content,
      f.cc_emails, f.bcc_emails, f.attachments⟩
  else .error errs

/-- A validated `PhoneAction`. -/
structure PhoneAction where
  to_phone : String
  to_name : String
  objective : String
  talking_points : List String
  expected_duration_minutes : Int
  notes : Option String
  deriving DecidableEq, Repr

/-- `validate_phone_format`: strip `[\s\-\(\)\.]` and require
`^\+?\d\x7b8,15\x7d$`. -/
def isValidPhone (v : String) : Bool :=
  let cleaned := v.data.filter (fun c =>
    !(c = ' ' || c = '-' || c = '(' || c = ')' || c = '.' ||
      c = '\t' || c = '\n' || c = '\r'))
  let digits := match cleaned with
    | '+' :: rest => rest
    | l => l
  (digits.all (fun c => 48 ≤ c.toNat && c.toNat ≤ 57)) &&
    8 ≤ digits.length && digits.length ≤ 15

/-- Field errors of a `PhoneAction`. -/
def phoneFieldErrors (to_phone to_name objective : String)
    (talking_points : List String) (dur : Int) (notes : Option String) :
    List String :=
  (if isValidPhone to_phone then [] else ["Invalid phone number format: " ++ to_phone]) ++
  strFieldErrors 1 to_name ++
  strFieldErrors 10 objective ++
  (if talking_points.length < 2 then ["List should have at least 2 items"]
   else match talking_points.findSome? (fun point =>
      if hasPlaceholders point then some ("Talking point contains placeholders: " ++ point)
      else if point.length < 10 then some ("Talking point too vague: " ++ point)
      else none) with
    | some e => [e]
    | none => []) ++
  (if 5 ≤ dur ∧ dur ≤ 120 then [] else ["Duration out of range"]) ++
  (match notes with
   | some nv => if hasPlaceholders nv then [placeholderMsg nv] else []
   | none => [])

/-- Construct a `PhoneAction`. -/
def mkPhoneAction (to_phone to_name objective : String)
    (talking_points : List String) (dur : Int) (notes : Option String) :
    Except (List String) PhoneAction :=
  let errs := phoneFieldErrors to_phone to_name objective talking_points dur notes
  if errs.isEmpty then .ok ⟨to_phone, to_name, objective, talking_points, dur, notes⟩
  else .error errs

/-- Substring test (for the `linkedin.com/in/` check). -/
def containsSub (needle hay : List Char) : Bool :=
  match hay with
  | [] => needle.isEmpty
  | _ :: rest => needle.isPrefixOf hay || containsSub needle rest

/-- A validated `LinkedInAction`. -/
structure LinkedInAction where
  recipient_linkedin_url : String
  recipient_name : String
  action_type : String
  subject : Option String
  message : String
  connection_note : Option String
  deriving DecidableEq, Repr

/-- Field errors of a `LinkedInAction`. -/
def linkedinFieldErrors (url name atype : String) (subject : Option String)
    (message : String) (note : Option String) : List String :=
  (if isHttpUrl url then
    (if containsSub "linkedin.com/in/".data url.data then []
     else ["Invalid LinkedIn profile URL: " ++ url])
   else ["URL should match format http or https: " ++ url]) ++
  strFieldErrors 1 name ++
  (if atype ∈ ["connection_request", "message", "inmail"] then []
   else ["Input should be a valid LinkedIn action type"]) ++
  (match subject with
   | some sv => if hasPlaceholders sv then [placeholderMsg sv] else []
   | none => []) ++
  (if message.length < 20 then ["String should have at least 20 characters"]
   else if message.length > 1900 then ["String should have at most 1900 characters"]
   else if hasPlaceholders message then [placeholderMsg message] else []) ++
  (match note with
   | some nv =>
      if nv.length > 300 then ["String should have at most 300 characters"]
      else if hasPlaceholders nv then [placeholderMsg nv] else []
   | none => [])

/-- Construct a `LinkedInAction`: field validation, then the
`validate_action_requirements` model validator. -/
def mkLinkedInAction (url name atype : String) (subject : Option String)
    (message : String) (note : Option String) :
    Except (List String) LinkedInAction :=
  let errs := linkedinFieldErrors url name atype subject message note
  if errs.isEmpty then
    if atype == "inmail" && !(optStrTruthy subject) then
      .error ["InMail requires a subject line"]
    else if atype == "connection_request" && !(optStrTruthy note) then
      .error ["Connection request should include a note"]
    else .ok ⟨url, name, atype, subject, message, note⟩
  else .error errs

/-- A validated `WhatsAppAction`. -/
structure WhatsAppAction where
  to_phone : String
  to_name : String
  message : String
  media_url : Option String
  deriving DecidableEq, Repr

/-- Field errors of a `WhatsAppAction`. -/
def whatsappFieldErrors (to_phone to_name message : String)
    (media : Option String) : List String :=
  (if isValidPhone to_phone then [] else ["Invalid phone number format: " ++ to_phone]) ++
  strFieldErrors 1 to_name ++
  strFieldErrors 10 message ++
  (match media with
   | some u => if isHttpUrl u then [] else ["URL should match format http or https: " ++ u]
   | none => [])

/-- Construct a `WhatsAppAction`. -/
def mkWhatsAppAction (to_phone to_name message : String) (media : Option String) :
    Except (List String) WhatsAppAction :=
  let errs := whatsappFieldErrors to_phone to_name message media
  if errs.isEmpty then .ok ⟨to_phone, to_name, message, media⟩
  else .error errs

/-- The discriminated `ActionType` union (`Field(discriminator='type')`). -/
inductive ActionPayload : Type where
  | email (a : EmailAction)
  | phone (a : PhoneAction)
  | linkedin (a : LinkedInAction)
  | whatsapp (a : WhatsAppAction)
  deriving DecidableEq, Repr

/-- A validated `ExecutableAction`. -/
structure ExecutableAction where
  action : ActionPayload
  priority : String
  recommended_timing : String
  prerequisites : List Prerequisite
  rationale : String
  context : String
  success_metrics : List String
  status : ActionStatus
  created_at : String
  deriving DecidableEq, Repr

/-- Field errors of an `ExecutableAction` (the nested `action` and
`prerequisites` arrive already validated). -/
def execFieldErrors (priority rationale ctx : String)
    (metrics : List String) : List String :=
  (if priority ∈ ["P0", "P1", "P2"] then []
   else ["Input should be 'P0', 'P1' or 'P2'"]) ++
  strFieldErrors 50 rationale ++
  strFieldErrors 30 ctx ++
  (if metrics.length < 1 then ["List should have at least 1 item"]
   else match metrics.findSome? (fun metric =>
      if hasPlaceholders metric then
        some ("Success metric contains placeholders: " ++ metric)
      else if metric.length < 10 then some ("Success metric too vague: " ++ metric)
      else none) with
    | some e => [e]
    | none => [])

/-- The `compute_status` model validator: recompute `status` from the
prerequisites. Only a caller-supplied `pending` is promoted to
`prerequisites_incomplete`, and only `prerequisites_incomplete` is promoted
to `ready`; every other supplied status is kept unchanged. -/
def computeStatus (prerequisites : List Prerequisite) (status : ActionStatus) :
    ActionStatus :=
  let blocking_incomplete := prerequisites.any
    (fun p => p.blocking && !(p.status == PrerequisiteStatus.completed))
  if blocking_incomplete && (status == ActionStatus.pending) then
    ActionStatus.prerequisites_incomplete
  else if !blocking_incomplete && (status == ActionStatus.prerequisites_incomplete) then
    ActionStatus.ready
  else status

/-- Construct an `ExecutableAction` (`status` defaults to `pending` and
`created_at` to `datetime.now()` at call sites): field validation, then the
`compute_status` model validator. -/
def mkExecutableAction (now : String) (action : ActionPayload)
    (priority recommended_timing : String) (prerequisites : List Prerequisite)
    (rationale ctx : String) (success_metrics : List String)
    (status : ActionStatus) : Except (List String) ExecutableAction :=
  let errs := execFieldErrors priority rationale ctx success_metrics
  if errs.isEmpty then
    .ok ⟨action, priority, recommended_timing, prerequisites, rationale, ctx,
      success_metrics, computeStatus prerequisites status, now⟩
  else .error errs

/-! ## Resilient parser (`src/brevo_sales/recommendations/parser.py`)

`json.loads` is modelled by a fuel-bounded recursive-descent parser over the
character list (fuel `length + 2` always suffices: every recursive step
consumes input). The number grammar is restricted to integers — no float
reaches any scenario embedded here; a float-bearing candidate is simply
rejected where Python would accept it. -/

/-- JSON whitespace. -/
def isJsonWs (c : Char) : Bool := c = ' ' || c = '\t' || c = '\n' || c = '\r'

/-- Skip JSON whitespace. -/
def skipWs (s : List Char) : List Char := s.dropWhile isJsonWs

/-- Hex digit value. -/
def hexVal (c : Char) : Option Nat :=
  if 48 ≤ c.toNat && c.toNat ≤ 57 then some (c.toNat - 48)
  else if 97 ≤ c.toNat && c.toNat ≤ 102 then some (c.toNat - 87)
  else if 65 ≤ c.toNat && c.toNat ≤ 70 then some (c.toNat - 55)
  else none

/-- Decimal digit? -/
def isDigit (c : Char) : Bool := 48 ≤ c.toNat && c.toNat ≤ 57

/-- Digits to a natural number. -/
def digitsToNat (l : List Char) : Nat := l.foldl (fun a c => a * 10 + (c.toNat - 48)) 0

/-- Parse the body of a JSON string literal (after the opening quote). -/
def parseStringBody : Nat → List Char → List Char → Option (String × List Char)
  | 0, _, _ => none
  | _ + 1, _, [] => none
  | fuel + 1, acc, c :: rest =>
    if c = '"' then some (⟨acc.reverse⟩, rest)
    else if c = '\\' then
      match rest with
      | '"' :: r => parseStringBody fuel ('"' :: acc) r
      | '\\' :: r => parseStringBody fuel ('\\' :: acc) r
      | '/' :: r => parseStringBody fuel ('/' :: acc) r
      | 'n' :: r => parseStringBody fuel ('\n' :: acc) r
      | 't' :: r => parseStringBody fuel ('\t' :: acc) r
      | 'r' :: r => parseStringBody fuel ('\r' :: acc) r
      | 'b' :: r => parseStringBody fuel ('\x08' :: acc) r
      | 'f' :: r => parseStringBody fuel ('\x0c' :: acc) r
      | 'u' :: h1 :: h2 :: h3 :: h4 :: r =>
        match hexVal h1, hexVal h2, hexVal h3, hexVal h4 with
        | some a, some b, some c2, some d =>
          parseStringBody fuel (Char.ofNat (((a * 16 + b) * 16 + c2) * 16 + d) :: acc) r
        | _, _, _, _ => none
      | _ => none
    else parseStringBody fuel (c :: acc) rest

mutual

/-- Parse one JSON value. -/
def parseValue : Nat → List Char → Option (JsonVal × List Char)
  | 0, _ => none
  | fuel + 1, s =>
    match skipWs s with
    | '\x7b' :: rest =>
      (match skipWs rest with
       | '\x7d' :: r2 => some (.obj [], r2)
       | r2 =>
         match parseMembers fuel r2 with
         | some (kvs, r3) => some (.obj kvs, r3)
         | none => none)
    | '[' :: rest =>
      (match skipWs rest with
       | ']' :: r2 => some (.arr [], r2)
       | r2 =>
         match parseItems fuel r2 with
         | some (xs, r3) => some (.arr xs, r3)
         | none => none)
    | '"' :: rest =>
      (match parseStringBody fuel [] rest with
       | some (str, r2) => some (.str str, r2)
       | none => none)
    | 't' :: 'r' :: 'u' :: 'e' :: r => some (.bool true, r)
    | 'f' :: 'a' :: 'l' :: 's' :: 'e' :: r => some (.bool false, r)
    | 'n' :: 'u' :: 'l' :: 'l' :: r => some (.null, r)
    | '-' :: rest =>
      (match rest.takeWhile isDigit with
       | [] => none
       | ds =>
         match rest.drop ds.length with
         | '.' :: _ => none
         | 'e' :: _ => none
         | 'E' :: _ => none
         | r => some (.num (-(digitsToNat ds : Int)), r))
    | s2 =>
      match s2.takeWhile isDigit with
      | [] => none
      | ds =>
        match s2.drop ds.length with
        | '.' :: _ => none
        | 'e' :: _ => none
        | 'E' :: _ => none
        | r => some (.num (digitsToNat ds : Int), r)

/-- Parse the members of a non-empty object, through the closing brace. -/
def parseMembers : Nat → List Char → Option (PyDict × List Char)
  | 0, _ => none
  | fuel + 1, s =>
    match skipWs s with
    | '"' :: rest =>
      (match parseStringBody fuel [] rest with
       | some (k, r2) =>
         (match skipWs r2 with
          | ':' :: r3 =>
            (match parseValue fuel r3 with
             | some (v, r4) =>
               (match skipWs r4 with
                | ',' :: r5 =>
                  (match parseMembers fuel r5 with
                   | some (kvs, r6) => some ((k, v) :: kvs, r6)
                   | none => none)
                | '\x7d' :: r5 => some ([(k, v)], r5)
                | _ => none)
             | none => none)
          | _ => none)
       | none => none)
    | _ => none

/-- Parse the items of a non-empty array, through the closing bracket. -/
def parseItems : Nat → List Char → Option (List JsonVal × List Char)
  | 0, _ => none
  | fuel + 1, s =>
    match parseValue fuel s with
    | some (v, r2) =>
      (match skipWs r2 with
       | ',' :: r3 =>
         (match parseItems fuel r3 with
          | some (xs, r4) => some (v :: xs, r4)
          | none => none)
       | ']' :: r3 => some ([v], r3)
       | _ => none)
    | none => none

end

/-- Model of `json.loads`: one value, nothing but whitespace after it. -/
def jsonLoads (s : String) : Option JsonVal :=
  match parseValue (s.length + 2) s.data with
  | some (v, rest) => if (skipWs rest).isEmpty then some v else none
  | none => none

/-! ### Pydantic decoding of the recommendation models from JSON -/

/-- Error-collecting pairing of two validation results. -/
def collect2 {α β : Type} :
    Except (List String) α → Except (List String) β → Except (List String) (α × β)
  | .ok a, .ok b => .ok (a, b)
  | .error e1, .error e2 => .error (e1 ++ e2)
  | .error e1, .ok _ => .error e1
  | .ok _, .error e2 => .error e2

/-- Collect a list of validation results. -/
def collectAll {α : Type} : List (Except (List String) α) → Except (List String) (List α)
  | [] => .ok []
  | x :: rest =>
    match collect2 x (collectAll rest) with
    | .ok (a, l) => .ok (a :: l)
    | .error e => .error e

/-- A required string field. -/
def getStrField (kvs : PyDict) (k : String) : Except (List String) String :=
  match dictGet kvs k with
  | some (.str s) => .ok s
  | some _ => .error ["Input should be a valid string: " ++ k]
  | none => .error ["Field required: " ++ k]

/-- An optional string field (missing and `null` mean `None`). -/
def getOptStrField (kvs : PyDict) (k : String) : Except (List String) (Option String) :=
  match dictGet kvs k with
  | some (.str s) => .ok (some s)
  | some .null => .ok none
  | some _ => .error ["Input should be a valid string: " ++ k]
  | none => .ok none

/-- A string field with a default for a missing key. -/
def getStrFieldD (kvs : PyDict) (k dflt : String) : Except (List String) String :=
  match dictGet kvs k with
  | some (.str s) => .ok s
  | some _ => .error ["Input should be a valid string: " ++ k]
  | none => .ok dflt

/-- A required list-of-strings field. -/
def getStrListField (kvs : PyDict) (k : String) : Except (List String) (List String) :=
  match dictGet kvs k with
  | some (.arr xs) =>
    collectAll (xs.map (fun x =>
      match x with
      | .str s => .ok s
      | _ => .error ["Input should be a valid string: " ++ k]))
  | some _ => .error ["Input should be a valid list: " ++ k]
  | none => .error ["Field required: " ++ k]

/-- An optional list-of-strings field defaulting to `[]`. -/
def getOptStrListField (kvs : PyDict) (k : String) : Except (List String) (List String) :=
  match dictGet kvs k with
  | some (.arr xs) =>
    collectAll (xs.map (fun x =>
      match x with
      | .str s => .ok s
      | _ => .error ["Input should be a valid string: " ++ k]))
  | some _ => .error ["Input should be a valid list: " ++ k]
  | none => .ok []

/-- A boolean field defaulting to `False`. -/
def getOptBoolField (kvs : PyDict) (k : String) : Except (List String) Bool :=
  match dictGet kvs k with
  | some (.bool b) => .ok b
  | some _ => .error ["Input should be a valid boolean: " ++ k]
  | none => .ok false

/-- A required integer field. -/
def getIntField (kvs : PyDict) (k : String) : Except (List String) Int :=
  match dictGet kvs k with
  | some (.num n) => .ok n
  | some _ => .error ["Input should be a valid integer: " ++ k]
  | none => .error ["Field required: " ++ k]

/-- A boolean field defaulting to `True` (the `blocking` default). -/
def getOptBoolFieldD (kvs : PyDict) (k : String) : Except (List String) Bool :=
  match dictGet kvs k with
  | some (.bool b) => .ok b
  | some _ => .error ["Input should be a valid boolean: " ++ k]
  | none => .ok true

/-- `PrerequisiteStatus` from its JSON string. -/
def prerequisiteStatusFromString (s : String) : Option PrerequisiteStatus :=
  if s = "todo" then some .todo
  else if s = "in_progress" then some .in_progress
  else if s = "completed" then some .completed
  else if s = "blocked" then some .blocked
  else none

/-- `ActionStatus` from its JSON string. -/
def actionStatusFromString (s : String) : Option ActionStatus :=
  if s = "pending" then some .pending
  else if s = "prerequisites_incomplete" then some .prerequisites_incomplete
  else if s = "ready" then some .ready
  else if s = "executing" then some .executing
  else if s = "completed" then some .completed
  else if s = "failed" then some .failed
  else none

/-- Finish decoding a `Prerequisite` once the raw fields are in. -/
def prereqFromFields :
    Except (List String)
      (String × String × Option String × Option String × String × Bool) →
    Except (List String) Prerequisite
  | .error es => .error es
  | .ok (i, t, a, d, st, b) =>
    match prerequisiteStatusFromString st with
    | some stv => mkPrerequisite i t a d stv b
    | none => .error ["Input should be a valid PrerequisiteStatus: " ++ st]

/-- Decode and validate a `Prerequisite` from JSON. -/
def Prerequisite.fromJson (j : JsonVal) : Except (List String) Prerequisite :=
  match j with
  | .obj kvs =>
    prereqFromFields (collect2 (getStrField kvs "id")
      (collect2 (getStrField kvs "task")
      (collect2 (getOptStrField kvs "assignee")
      (collect2 (getOptStrField kvs "deadline")
      (collect2 (getStrFieldD kvs "status" "todo")
        (getOptBoolFieldD kvs "blocking"))))))
  | _ => .error ["Input should be a valid dictionary: Prerequisite"]

/-- Decode and validate an `EmailAction` payload. -/
def decodeEmailPayload (kvs : PyDict) : Except (List String) ActionPayload :=
  match collect2 (getStrField kvs "from_email")
    (collect2 (getStrField kvs "from_name")
    (collect2 (getStrField kvs "to_email")
    (collect2 (getStrField kvs "to_name")
    (collect2 (getStrField kvs "subject")
    (collect2 (getStrField kvs "content")
    (collect2 (getOptStrListField kvs "cc_emails")
    (collect2 (getOptStrListField kvs "bcc_emails")
      (getOptStrListField kvs "attachments")))))))) with
  | .error es => .error es
  | .ok (fe, fn, te, tn, su, co, cc, bcc, att) =>
    (mkEmailAction ⟨fe, fn, te, tn, su, co, cc, bcc, att⟩).map .email

/-- Decode and validate a `PhoneAction` payload. -/
def decodePhonePayload (kvs : PyDict) : Except (List String) ActionPayload :=
  match collect2 (getStrField kvs "to_phone")
    (collect2 (getStrField kvs "to_name")
    (collect2 (getStrField kvs "objective")
    (collect2 (getStrListField kvs "talking_points")
    (collect2 (getIntField kvs "expected_duration_minutes")
      (getOptStrField kvs "notes"))))) with
  | .error es => .error es
  | .ok (tp, tn, ob, pts, dur, notes) =>
    (mkPhoneAction tp tn ob pts dur notes).map .phone

/-- Decode and validate a `LinkedInAction` payload. -/
def decodeLinkedInPayload (kvs : PyDict) : Except (List String) ActionPayload :=
  match collect2 (getStrField kvs "recipient_linkedin_url")
    (collect2 (getStrField kvs "recipient_name")
    (collect2 (getStrField kvs "action_type")
    (collect2 (getOptStrField kvs "subject")
    (collect2 (getStrField kvs "message")
      (getOptStrField kvs "connection_note"))))) with
  | .error es => .error es
  | .ok (u, n, at2, su, msg, note) =>
    (mkLinkedInAction u n at2 su msg note).map .linkedin

/-- Decode and validate a `WhatsAppAction` payload. -/
def decodeWhatsAppPayload (kvs : PyDict) : Except (List String) ActionPayload :=
  match collect2 (getStrField kvs "to_phone")
    (collect2 (getStrField kvs "to_name")
    (collect2 (getStrField kvs "message")
      (getOptStrField kvs "media_url"))) with
  | .error es => .error es
  | .ok (tp, tn, msg, mu) =>
    (mkWhatsAppAction tp tn msg mu).map .whatsapp

/-- Decode and validate the discriminated action payload. -/
def ActionPayload.fromJson (j : JsonVal) : Except (List String) ActionPayload :=
  match j with
  | .obj kvs =>
    (match dictGet kvs "type" with
     | some (.str "email") => decodeEmailPayload kvs
     | some (.str "phone") => decodePhonePayload kvs
     | some (.str "linkedin") => decodeLinkedInPayload kvs
     | some (.str "whatsapp") => decodeWhatsAppPayload kvs
     | _ => .error ["Input tagged-union discriminator missing or unknown"])
  | _ => .error ["Input should be a valid dictionary: action"]

/-- Finish decoding an `ExecutableAction` once the raw fields are in. -/
def execFromFields (now : String) :
    Except (List String)
      (ActionPayload × String × String × List Prerequisite × String × String ×
        List String × String × String) →
    Except (List String) ExecutableAction
  | .error es => .error es
  | .ok (a, pr, tm, ps, r, c, ms, st, ca) =>
    match actionStatusFromString st with
    | some stv =>
      (match mkExecutableAction now a pr tm ps r c ms stv with
       | .ok act => .ok { act with created_at := ca }
       | .error es => .error es)
    | none => .error ["Input should be a valid ActionStatus: " ++ st]

/-- Decode and validate an `ExecutableAction` from JSON (`now` backs the
`created_at` default). -/
def ExecutableAction.fromJson (now : String) (j : JsonVal) :
    Except (List String) ExecutableAction :=
  match j with
  | .obj kvs =>
    execFromFields now (collect2
      (match dictGet kvs "action" with
       | some aj => ActionPayload.fromJson aj
       | none => .error ["Field required: action"])
      (collect2 (getStrField kvs "priority")
      (collect2 (getStrField kvs "recommended_timing")
      (collect2
        (match dictGet kvs "prerequisites" with
         | some (.arr xs) => collectAll (xs.map Prerequisite.fromJson)
         | some _ => .error ["Input should be a valid list: prerequisites"]
         | none => .ok [])
      (collect2 (getStrField kvs "rationale")
      (collect2 (getStrField kvs "context")
      (collect2 (getStrListField kvs "success_metrics")
      (collect2 (getStrFieldD kvs "status" "pending")
        (getStrFieldD kvs "created_at" now)))))))))
  | _ => .error ["Input should be a valid dictionary: ExecutableAction"]

/-- An optional list of actions defaulting to `[]`. -/
def getActionsField (now : String) (kvs : PyDict) (k : String) :
    Except (List String) (List ExecutableAction) :=
  match dictGet kvs k with
  | some (.arr xs) => collectAll (xs.map (ExecutableAction.fromJson now))
  | some _ => .error ["Input should be a valid list: " ++ k]
  | none => .ok []

/-- A validated `ActionRecommendations`. -/
structure ActionRecommendations where
  deal_id : String
  deal_name : String
  contact_name : Option String
  contact_email : Option String
  executive_summary : String
  key_insights : List String
  p0_actions : List ExecutableAction
  p1_actions : List ExecutableAction
  p2_actions : List ExecutableAction
  overall_strategy : String
  generated_at : String
  data_version : String
  is_cached : Bool
  deriving DecidableEq, Repr

/-- `all_actions`: concatenation across the three priorities. -/
def ActionRecommendations.all_actions (r : ActionRecommendations) :
    List ExecutableAction :=
  r.p0_actions ++ r.p1_actions ++ r.p2_actions

/-- `ready_actions`: the actions whose status is `ready` or `pending`. -/
def ActionRecommendations.ready_actions (r : ActionRecommendations) :
    List ExecutableAction :=
  r.all_actions.filter (fun a =>
    a.status == ActionStatus.ready || a.status == ActionStatus.pending)

/-- Finish decoding an `ActionRecommendations` once the raw fields are in:
the remaining length constraints. -/
def recsFromFields :
    Except (List String)
      (String × String × Option String × Option String × String × List String ×
        List ExecutableAction × List ExecutableAction × List ExecutableAction ×
        String × String × String × Bool) →
    Except (List String) ActionRecommendations
  | .error es => .error es
  | .ok (di, dn, cn, ce, ex, ki, p0, p1, p2, os, ga, dv, ic) =>
    let cerrs :=
      (if ex.length < 100 then
        ["String should have at least 100 characters: executive_summary"] else []) ++
      (if ki.length < 1 then ["List should have at least 1 item: key_insights"] else []) ++
      (if os.length < 100 then
        ["String should have at least 100 characters: overall_strategy"] else [])
    if cerrs.isEmpty then .ok ⟨di, dn, cn, ce, ex, ki, p0, p1, p2, os, ga, dv, ic⟩
    else .error cerrs

/-- Decode and validate an `ActionRecommendations` from JSON
(`ActionRecommendations(**data)`). -/
def ActionRecommendations.fromJson (now : String) (j : JsonVal) :
    Except (List String) ActionRecommendations :=
  match j with
  | .obj kvs =>
    recsFromFields (collect2 (getStrField kvs "deal_id")
      (collect2 (getStrField kvs "deal_name")
      (collect2 (getOptStrField kvs "contact_name")
      (collect2 (getOptStrField kvs "contact_email")
      (collect2 (getStrField kvs "executive_summary")
      (collect2 (getStrListField kvs "key_insights")
      (collect2 (getActionsField now kvs "p0_actions")
      (collect2 (getActionsField now kvs "p1_actions")
      (collect2 (getActionsField now kvs "p2_actions")
      (collect2 (getStrField kvs "overall_strategy")
      (collect2 (getStrFieldD kvs "generated_at" now)
      (collect2 (getStrField kvs "data_version")
        (getOptBoolField kvs "is_cached")))))))))))))
  | _ => .error ["Input should be a valid dictionary: ActionRecommendations"]

/-! ### Tier 2: fenced-block extraction

The non-overlapping leftmost scan of `re.findall` for
```` ```json\s*\n(.*?)\n``` ```` and its generic twin: after `` ``` `` and
the optional tag, the greedy-then-backtracking `\s*\n` consumes the
whitespace run up to and including its last newline; the lazy capture stops at
the first `\n``` `, whose backticks are consumed. -/

/-- Index just past the last newline of `l`, if any. -/
def lastNewlineEnd (l : List Char) : Option Nat :=
  match l.reverse.findIdx? (fun c => c = '\n') with
  | some r => some (l.length - r)
  | none => none

/-- First index at which `needle` begins inside `hay`. -/
def findSubIdx (needle : List Char) : List Char → Option Nat
  | [] => if needle.isEmpty then some 0 else none
  | c :: rest =>
    if needle.isPrefixOf (c :: rest) then some 0
    else (findSubIdx needle rest).map (· + 1)

/-- Try the fenced-block pattern at the start of `s`; on a match return the
captured body and the remainder after the closing fence. -/
def matchFenceAt (tag : List Char) (s : List Char) : Option (String × List Char) :=
  if ("```".data ++ tag).isPrefixOf s then
    let after := s.drop (3 + tag.length)
    let ws := after.takeWhile isPyWs
    match lastNewlineEnd ws with
    | none => none
    | some k =>
      let body := after.drop k
      match findSubIdx "\n```".data body with
      | some i => some (⟨body.take i⟩, body.drop (i + 4))
      | none => none
  else none

/-- All non-overlapping matches, scanning left to right. -/
def scanFences (tag : List Char) : Nat → List Char → List String
  | 0, _ => []
  | fuel + 1, s =>
    match matchFenceAt tag s with
    | some (cap, rest) => cap :: scanFences tag fuel rest
    | none =>
      match s with
      | [] => []
      | _ :: t => scanFences tag fuel t

/-! ### Tier 3: brace-delimited extraction

`re.findall` for `\x7b[^\x7b\x7d]*(?:\x7b[^\x7b\x7d]*\x7d[^\x7b\x7d]*)*\x7d`:
an outer brace pair containing plain runs and complete depth-one brace
groups. -/

/-- Neither `\x7b` nor `\x7d`. -/
def nonBrace (c : Char) : Bool := !(c = '\x7b' || c = '\x7d')

/-- After the opening brace and a plain run, consume
`(?:\x7b[^\x7b\x7d]*\x7d[^\x7b\x7d]*)*\x7d`; `acc` is the text matched so
far (reversed). -/
def braceLoop : Nat → List Char → List Char → Option (List Char × List Char)
  | 0, _, _ => none
  | fuel + 1, acc, s =>
    match s with
    | '\x7d' :: rest => some (('\x7d' :: acc).reverse, rest)
    | '\x7b' :: r2 =>
      let b := r2.takeWhile nonBrace
      (match r2.drop b.length with
       | '\x7d' :: r3 =>
         let c := r3.takeWhile nonBrace
         braceLoop fuel
           (c.reverse ++ '\x7d' :: b.reverse ++ '\x7b' :: acc)
           (r3.drop c.length)
       | _ => none)
    | _ => none

/-- Try the brace pattern at the start of `s`. -/
def matchBraceAt (s : List Char) : Option (String × List Char) :=
  match s with
  | '\x7b' :: rest =>
    let a := rest.takeWhile nonBrace
    (match braceLoop (rest.length + 1) (a.reverse ++ ['\x7b']) (rest.drop a.length) with
     | some (txt, rem) => some (⟨txt⟩, rem)
     | none => none)
  | _ => none

/-- All non-overlapping brace matches, scanning left to right. -/
def scanBraces : Nat → List Char → List String
  | 0, _ => []
  | fuel + 1, s =>
    match matchBraceAt s with
    | some (cap, rest) => cap :: scanBraces fuel rest
    | none =>
      match s with
      | [] => []
      | _ :: t => scanBraces fuel t

/-- `sorted(matches, key=len, reverse=True)`: stable, longest first. -/
def lenDescLe (a b : String) : Prop := b.length ≤ a.length

instance : DecidableRel lenDescLe := fun a b =>
  inferInstanceAs (Decidable (b.length ≤ a.length))

/-- Python `in` on a decoded JSON value (`'deal_id' in data`): on a dict this
is a key test. (`json.loads` of a brace-delimited candidate always yields a
dict, so the remaining Python cases cannot arise here.) -/
def pyIn (k : String) (v : JsonVal) : Bool :=
  match v with
  | .obj kvs => kvs.any (fun kv => kv.1 == k)
  | .arr xs => xs.any (fun x => x == .str k)
  | .str s => containsSub k.data s.data
  | _ => false

/-! ### The three tiers and `ActionParser.parse` -/

/-- `ParseResult`. -/
structure ParseResult where
  success : Bool
  data : Option ActionRecommendations
  tier_used : Option Nat
  error : Option String
  raw_response : Option String
  deriving DecidableEq, Repr

/-- Tier 1, `_parse_tier1_direct_json`: the trimmed whole response must
deserialize and validate. `deal_id` and `data_version` are accepted (as the
source does) but only ever logged. `None` models the raised failure. -/
def parseTier1 (now : String) (response deal_id data_version : String) :
    Option ParseResult :=
  match jsonLoads (pyStrip response) with
  | some data =>
    (match ActionRecommendations.fromJson now data with
     | .ok recs => some ⟨true, some recs, some 1, none, some response⟩
     | .error _ => none)
  | none => none

/-- Try each fenced block in order; first block that deserializes and
validates wins, with `tier_used = 2`. -/
def tryBlocks (now : String) (response : String) : List String → Option ParseResult
  | [] => none
  | b :: rest =>
    match jsonLoads (pyStrip b) with
    | some data =>
      (match ActionRecommendations.fromJson now data with
       | .ok recs => some ⟨true, some recs, some 2, none, some response⟩
       | .error _ => tryBlocks now response rest)
    | none => tryBlocks now response rest

/-- Tier 2, `_parse_tier2_markdown`: `json`-tagged fences first, then generic
fences, in document order. -/
def parseTier2 (now : String) (response deal_id data_version : String) :
    Option ParseResult :=
  let matches1 := scanFences "json".data (response.length + 1) response.data
  let matches2 := scanFences [] (response.length + 1) response.data
  tryBlocks now response (matches1 ++ matches2)

/-- Try the brace candidates in order; a candidate must deserialize, look
like recommendations (`'deal_id' in data or 'p0_actions' in data`) and
validate; `tier_used = 3`. -/
def tryCandidates (now : String) (response : String) : List String → Option ParseResult
  | [] => none
  | b :: rest =>
    match jsonLoads b with
    | some data =>
      if pyIn "deal_id" data || pyIn "p0_actions" data then
        (match ActionRecommendations.fromJson now data with
         | .ok recs => some ⟨true, some recs, some 3, none, some response⟩
         | .error _ => tryCandidates now response rest)
      else tryCandidates now response rest
    | none => tryCandidates now response rest

/-- Tier 3, `_parse_tier3_regex`: brace-delimited candidates sorted longest
first, top 5 attempted. -/
def parseTier3 (now : String) (response deal_id data_version : String) :
    Option ParseResult :=
  if (scanBraces (response.length + 1) response.data).isEmpty then none
  else tryCandidates now response
    (((scanBraces (response.length + 1) response.data).insertionSort lenDescLe).take 5)

/-- The terminal-failure message of `parse`. -/
def allTiersFailedMsg : String :=
  "All parsing tiers failed. Response may not contain valid JSON or the format is incorrect."

/-- `ActionParser.parse`: the three tiers strictly in order, first success
wins; on total failure, a failure result carrying only a 500-character
snippet. -/
def parse (now : String) (response deal_id data_version : String) : ParseResult :=
  match parseTier1 now response deal_id data_version with
  | some r => r
  | none =>
    match parseTier2 now response deal_id data_version with
    | some r => r
    | none =>
      match parseTier3 now response deal_id data_version with
      | some r => r
      | none =>
        ⟨false, none, none, some allTiersFailedMsg, some (strTake response 500)⟩

/-! ### String and store lemmas for the cache proofs -/

theorem strAppend_cancel_left {s a b : String} (h : s ++ a = s ++ b) : a = b := by
  have h2 : s.data ++ a.data = s.data ++ b.data := by
    have := congrArg String.data h
    simpa using this
  have h3 : a.data = b.data := List.append_cancel_left h2
  cases a; cases b
  exact congrArg String.mk h3

theorem strAppend_cancel_right {a b s : String} (h : a ++ s = b ++ s) : a = b := by
  have h2 : a.data ++ s.data = b.data ++ s.data := by
    have := congrArg String.data h
    simpa using this
  have h3 : a.data = b.data := List.append_cancel_right h2
  cases a; cases b
  exact congrArg String.mk h3

theorem storeFind_singleton {α : Type} (k key : String) (row : α) :
    storeFind [(k, row)] key = if k = key then some row else none := by
  by_cases h : k = key
  · simp [storeFind, h]
  · have hb : (k == key) = false := beq_eq_false_iff_ne.mpr h
    simp [storeFind, List.find?, hb, h]

/-! ### Fresh/stale characterization of the two AI caches on one stored row -/

theorem getCachedSummary_singleton_fresh (sha256hex md5trunc : String → String)
    (k : String) (row : SumRow) (now ttl_hours : Int) (e : PyDict) (p : String)
    (hfresh : lookupIsFresh
      (getCachedSummary sha256hex md5trunc [(k, row)] now ttl_hours e p) = true) :
    k = summaryCacheKey e (computePromptHash md5trunc p) ∧
    row.enriched_data_hash = computeDataHash sha256hex e ∧
    now - row.generated_at < ttl_hours * 3600 := by
  unfold getCachedSummary at hfresh
  by_cases hk : k = summaryCacheKey e (computePromptHash md5trunc p)
  · simp only [storeFind_singleton, if_pos hk] at hfresh
    by_cases hd : row.enriched_data_hash = computeDataHash sha256hex e
    · by_cases ht : now - row.generated_at < ttl_hours * 3600
      · exact ⟨hk, hd, ht⟩
      · simp [hd, ht, lookupIsFresh] at hfresh
    · simp [hd, lookupIsFresh] at hfresh
  · simp only [storeFind_singleton, if_neg hk, lookupIsFresh] at hfresh
    exact Bool.noConfusion hfresh

theorem getCachedSummary_singleton_miss (sha256hex md5trunc : String → String)
    (k : String) (row : SumRow) (now ttl_hours : Int) (e : PyDict) (p : String)
    (hk : k ≠ summaryCacheKey e (computePromptHash md5trunc p)) :
    getCachedSummary sha256hex md5trunc [(k, row)] now ttl_hours e p = none := by
  unfold getCachedSummary
  simp only [storeFind_singleton, if_neg hk]

theorem getCachedSummary_singleton_stale (sha256hex md5trunc : String → String)
    (k : String) (row : SumRow) (now ttl_hours : Int) (e : PyDict) (p : String)
    (hk : k = summaryCacheKey e (computePromptHash md5trunc p))
    (hcond : row.enriched_data_hash ≠ computeDataHash sha256hex e ∨
      ttl_hours * 3600 ≤ now - row.generated_at) :
    getCachedSummary sha256hex md5trunc [(k, row)] now ttl_hours e p =
      some (row.summary_json, false, some row.enriched_data_json) := by
  unfold getCachedSummary
  simp only [storeFind_singleton, if_pos hk]
  rcases hcond with hd | ht
  · simp [hd]
  · have hlt : ¬ (now - row.generated_at < ttl_hours * 3600) := by omega
    simp [hlt]

theorem getCachedRecommendation_singleton_fresh (h : String → String)
    (k : String) (row : RecRow) (now : Int) (d : String) (e : PyDict)
    (sm : Option String) (p c : String) (g : Option String)
    (hfresh : lookupIsFresh
      (getCachedRecommendation h [(k, row)] now d e sm p c g) = true) :
    k = recCacheKey d (h p) (h c) (recCampaignHash h g) ∧
    row.enriched_data_hash = computeHashJson h (enrichedStable e) ∧
    row.prompt_hash = h p ∧
    row.company_context_hash = h c ∧
    (optStrTruthy g = true → row.campaign_context_hash = recCampaignHash h g) ∧
    now ≤ row.expires_at := by
  unfold getCachedRecommendation computeHashStr at hfresh
  by_cases hk : k = recCacheKey d (h p) (h c) (recCampaignHash h g)
  · simp only [storeFind_singleton, if_pos hk] at hfresh
    refine ⟨hk, ?_⟩
    by_cases h1 : row.enriched_data_hash = computeHashJson h (enrichedStable e)
    case neg => simp [h1, lookupIsFresh] at hfresh
    by_cases h2 : row.prompt_hash = h p
    case neg => simp [h1, h2, lookupIsFresh] at hfresh
    by_cases h3 : row.company_context_hash = h c
    case neg => simp [h1, h2, h3, lookupIsFresh] at hfresh
    by_cases h6 : now ≤ row.expires_at
    case neg =>
      have hgt : now > row.expires_at := by omega
      by_cases h4 : optStrTruthy g = true
      · by_cases h5 : row.campaign_context_hash = recCampaignHash h g
        · simp [h1, h2, h3, h4, h5, hgt, lookupIsFresh] at hfresh
        · simp [h1, h2, h3, h4, h5, lookupIsFresh] at hfresh
      · have h4f : optStrTruthy g = false := by
          cases hx : optStrTruthy g
          · rfl
          · exact absurd hx h4
        simp [h1, h2, h3, h4f, hgt, lookupIsFresh] at hfresh
    by_cases h4 : optStrTruthy g = true
    · by_cases h5 : row.campaign_context_hash = recCampaignHash h g
      · exact ⟨h1, h2, h3, fun _ => h5, h6⟩
      · simp [h1, h2, h3, h4, h5, lookupIsFresh] at hfresh
    · exact ⟨h1, h2, h3, fun hx => absurd hx h4, h6⟩
  · simp only [storeFind_singleton, if_neg hk, lookupIsFresh] at hfresh
    exact Bool.noConfusion hfresh

theorem getCachedRecommendation_singleton_miss (h : String → String)
    (k : String) (row : RecRow) (now : Int) (d : String) (e : PyDict)
    (sm : Option String) (p c : String) (g : Option String)
    (hk : k ≠ recCacheKey d (h p) (h c) (recCampaignHash h g)) :
    getCachedRecommendation h [(k, row)] now d e sm p c g = none := by
  unfold getCachedRecommendation computeHashStr
  simp only [storeFind_singleton, if_neg hk]

theorem getCachedRecommendation_singleton_stale (h : String → String)
    (k : String) (row : RecRow) (now : Int) (d : String) (e : PyDict)
    (sm : Option String) (p c : String) (g : Option String)
    (hk : k = recCacheKey d (h p) (h c) (recCampaignHash h g))
    (hcond : row.enriched_data_hash ≠ computeHashJson h (enrichedStable e) ∨
      row.prompt_hash ≠ h p ∨
      row.company_context_hash ≠ h c ∨
      (optStrTruthy g = true ∧ row.campaign_context_hash ≠ recCampaignHash h g) ∨
      now > row.expires_at) :
    getCachedRecommendation h [(k, row)] now d e sm p c g =
      some (row.recommendation_json, false, some row.enriched_data_json) := by
  unfold getCachedRecommendation computeHashStr
  simp only [storeFind_singleton, if_pos hk]
  rcases hcond with h1 | h2 | h3 | ⟨h4a, h4b⟩ | h5
  · simp [h1]
  · simp [h2]
  · simp [h3]
  · simp [h4a, h4b]
  · simp [h5]

/-! ### Key injectivity in each tracked component -/

theorem summaryCacheKey_inj_prompt (e : PyDict) {x y : String}
    (h : summaryCacheKey e x = summaryCacheKey e y) : x = y := by
  simp only [summaryCacheKey] at h
  exact strAppend_cancel_left h

/-- Splitting a cache key over the optional campaign suffix. -/
theorem recCacheKey_eq_base (d ph ch : String) (cg : Option String) :
    recCacheKey d ph ch cg =
      ("deal:" ++ d ++ ":prompt:" ++ ph ++ ":context:" ++ ch) ++
        (match cg with
          | some g => if g == "" then "" else ":campaign:" ++ g
          | none => "") := by
  unfold recCacheKey
  cases cg with
  | none => simp
  | some g =>
    by_cases hg : g == ""
    · simp [hg]
    · simp [hg, String.append_assoc]

theorem campaignSuffix_ne_empty (g : String) :
    ":campaign:" ++ g ≠ "" := by
  intro hx
  have h2 := congrArg String.length hx
  rw [String.length_append] at h2
  have h3 : (":campaign:" : String).length = 10 := by decide
  have h4 : ("" : String).length = 0 := by decide
  omega

theorem recCacheKey_inj_campaign {d ph ch : String} {g1 g2 : Option String}
    (hg1 : ∀ s, g1 = some s → s ≠ "") (hg2 : ∀ s, g2 = some s → s ≠ "")
    (h : recCacheKey d ph ch g1 = recCacheKey d ph ch g2) : g1 = g2 := by
  rw [recCacheKey_eq_base, recCacheKey_eq_base] at h
  cases g1 with
  | none =>
    cases g2 with
    | none => rfl
    | some s2 =>
      have h2 := strAppend_cancel_left h
      dsimp only at h2
      have hs2 := hg2 s2 rfl
      rw [if_neg (by simpa using hs2)] at h2
      exact absurd h2.symm (campaignSuffix_ne_empty s2)
  | some s1 =>
    have hs1 := hg1 s1 rfl
    cases g2 with
    | none =>
      have h2 := strAppend_cancel_left h
      dsimp only at h2
      rw [if_neg (by simpa using hs1)] at h2
      exact absurd h2 (campaignSuffix_ne_empty s1)
    | some s2 =>
      have h2 := strAppend_cancel_left h
      dsimp only at h2
      have hs2 := hg2 s2 rfl
      rw [if_neg (by simpa using hs1), if_neg (by simpa using hs2)] at h2
      have h3 := strAppend_cancel_left h2
      rw [h3]

theorem recCacheKey_inj_prompt {d ch : String} {x y : String} {cg : Option String}
    (h : recCacheKey d x ch cg = recCacheKey d y ch cg) : x = y := by
  rw [recCacheKey_eq_base, recCacheKey_eq_base] at h
  have h2 := strAppend_cancel_right h
  have h3 := strAppend_cancel_right h2
  exact strAppend_cancel_left (strAppend_cancel_right h3)

theorem recCacheKey_inj_context {d ph : String} {x y : String} {cg : Option String}
    (h : recCacheKey d ph x cg = recCacheKey d ph y cg) : x = y := by
  rw [recCacheKey_eq_base, recCacheKey_eq_base] at h
  have h2 := strAppend_cancel_right h
  exact strAppend_cancel_left h2

/-! ### Invalidation after a single-dependency change (one stored row) -/

theorem sumNotFresh_dataChange (sha256hex md5trunc : String → String)
    (k : String) (row : SumRow) (now ttl_hours : Int) (e e' : PyDict) (p : String)
    (hfresh : lookupIsFresh
      (getCachedSummary sha256hex md5trunc [(k, row)] now ttl_hours e p) = true)
    (hdiff : computeDataHash sha256hex e' ≠ computeDataHash sha256hex e) :
    lookupIsFresh
      (getCachedSummary sha256hex md5trunc [(k, row)] now ttl_hours e' p) = false := by
  obtain ⟨hk, hd, _⟩ :=
    getCachedSummary_singleton_fresh sha256hex md5trunc k row now ttl_hours e p hfresh
  by_cases hk2 : k = summaryCacheKey e' (computePromptHash md5trunc p)
  · rw [getCachedSummary_singleton_stale sha256hex md5trunc k row now ttl_hours e' p hk2
      (Or.inl (by rw [hd]; exact fun hx => hdiff hx.symm))]
    simp [lookupIsFresh]
  · rw [getCachedSummary_singleton_miss sha256hex md5trunc k row now ttl_hours e' p hk2]
    simp [lookupIsFresh]

theorem sumNotFresh_promptChange (sha256hex md5trunc : String → String)
    (hinj : Function.Injective md5trunc)
    (k : String) (row : SumRow) (now ttl_hours : Int) (e : PyDict) (p p' : String)
    (hfresh : lookupIsFresh
      (getCachedSummary sha256hex md5trunc [(k, row)] now ttl_hours e p) = true)
    (hne : p' ≠ p) :
    lookupIsFresh
      (getCachedSummary sha256hex md5trunc [(k, row)] now ttl_hours e p') = false := by
  obtain ⟨hk, _, _⟩ :=
    getCachedSummary_singleton_fresh sha256hex md5trunc k row now ttl_hours e p hfresh
  have hk2 : k ≠ summaryCacheKey e (computePromptHash md5trunc p') := by
    intro hcontra
    rw [hk] at hcontra
    have := summaryCacheKey_inj_prompt e hcontra
    exact hne (hinj this.symm)
  rw [getCachedSummary_singleton_miss sha256hex md5trunc k row now ttl_hours e p' hk2]
  simp [lookupIsFresh]

theorem recNotFresh_enrichedChange (h : String → String)
    (k : String) (row : RecRow) (now : Int) (d : String) (e e' : PyDict)
    (sm : Option String) (p c : String) (g : Option String)
    (hfresh : lookupIsFresh
      (getCachedRecommendation h [(k, row)] now d e sm p c g) = true)
    (hdiff : computeHashJson h (enrichedStable e') ≠ computeHashJson h (enrichedStable e)) :
    lookupIsFresh
      (getCachedRecommendation h [(k, row)] now d e' sm p c g) = false := by
  obtain ⟨hk, hd, _⟩ :=
    getCachedRecommendation_singleton_fresh h k row now d e sm p c g hfresh
  rw [getCachedRecommendation_singleton_stale h k row now d e' sm p c g hk
    (Or.inl (by rw [hd]; exact fun hx => hdiff hx.symm))]
  simp [lookupIsFresh]

theorem recNotFresh_promptChange (h : String → String)
    (hinj : Function.Injective h)
    (k : String) (row : RecRow) (now : Int) (d : String) (e : PyDict)
    (sm : Option String) (p p' c : String) (g : Option String)
    (hfresh : lookupIsFresh
      (getCachedRecommendation h [(k, row)] now d e sm p c g) = true)
    (hne : p' ≠ p) :
    lookupIsFresh
      (getCachedRecommendation h [(k, row)] now d e sm p' c g) = false := by
  obtain ⟨hk, _⟩ :=
    getCachedRecommendation_singleton_fresh h k row now d e sm p c g hfresh
  have hk2 : k ≠ recCacheKey d (h p') (h c) (recCampaignHash h g) := by
    intro hcontra
    rw [hk] at hcontra
    exact hne (hinj (recCacheKey_inj_prompt hcontra).symm)
  rw [getCachedRecommendation_singleton_miss h k row now d e sm p' c g hk2]
  simp [lookupIsFresh]

theorem recNotFresh_contextChange (h : String → String)
    (hinj : Function.Injective h)
    (k : String) (row : RecRow) (now : Int) (d : String) (e : PyDict)
    (sm : Option String) (p c c' : String) (g : Option String)
    (hfresh : lookupIsFresh
      (getCachedRecommendation h [(k, row)] now d e sm p c g) = true)
    (hne : c' ≠ c) :
    lookupIsFresh
      (getCachedRecommendation h [(k, row)] now d e sm p c' g) = false := by
  obtain ⟨hk, _⟩ :=
    getCachedRecommendation_singleton_fresh h k row now d e sm p c g hfresh
  have hk2 : k ≠ recCacheKey d (h p) (h c') (recCampaignHash h g) := by
    intro hcontra
    rw [hk] at hcontra
    exact hne (hinj (recCacheKey_inj_context hcontra).symm)
  rw [getCachedRecommendation_singleton_miss h k row now d e sm p c' g hk2]
  simp [lookupIsFresh]

theorem recCampaignHash_nonempty (h : String → String)
    (hne_empty : ∀ s, h s ≠ "") (g : Option String) :
    ∀ s, recCampaignHash h g = some s → s ≠ "" := by
  intro s hs
  unfold recCampaignHash at hs
  by_cases ht : optStrTruthy g = true
  · rw [if_pos ht] at hs
    cases hs
    exact hne_empty _
  · rw [if_neg ht] at hs
    exact absurd hs (by simp)

theorem recNotFresh_campaignChange (h : String → String)
    (hne_empty : ∀ s, h s ≠ "")
    (k : String) (row : RecRow) (now : Int) (d : String) (e : PyDict)
    (sm : Option String) (p c : String) (g g' : Option String)
    (hfresh : lookupIsFresh
      (getCachedRecommendation h [(k, row)] now d e sm p c g) = true)
    (hne : recCampaignHash h g' ≠ recCampaignHash h g) :
    lookupIsFresh
      (getCachedRecommendation h [(k, row)] now d e sm p c g') = false := by
  obtain ⟨hk, _⟩ :=
    getCachedRecommendation_singleton_fresh h k row now d e sm p c g hfresh
  have hk2 : k ≠ recCacheKey d (h p) (h c) (recCampaignHash h g') := by
    intro hcontra
    rw [hk] at hcontra
    exact hne (recCacheKey_inj_campaign
      (recCampaignHash_nonempty h hne_empty g)
      (recCampaignHash_nonempty h hne_empty g') hcontra).symm
  rw [getCachedRecommendation_singleton_miss h k row now d e sm p c g' hk2]
  simp [lookupIsFresh]

/-- The gatherer cache: an expired row is a bare miss on lookup. -/
theorem gatherGet_singleton_expired (row : GatherRow) (now : Int)
    (s t i : String) (hexp : row.expires_at ≤ now) :
    gatherGet [(gatherCacheKey s t i, row)] now s t i = none := by
  unfold gatherGet
  simp only [storeFind_singleton, if_pos rfl]
  have hno : ¬ (row.expires_at > now) := by omega
  simp [hno]

/-! ## Claims about the digest and the diff engine -/

/-- C7: the dependency digest is order- and metadata-insensitive — any two
enriched dicts that agree after recursively stripping the volatile field
names and normalizing key order at every depth produce identical values of
`SummaryCache._compute_data_hash`, whatever hash function is applied. -/
theorem digest_canon_insensitive (sha256hex : String → String) (a b : PyDict)
    (h : canon (cleanJson (.obj a)) = canon (cleanJson (.obj b))) :
    computeDataHash sha256hex a = computeDataHash sha256hex b := by
  unfold computeDataHash
  rw [← dumps_canon (cleanJson (.obj a)), h, dumps_canon]

/-- Witness for C7: two dicts that differ in entry order and in the volatile
fields `enrichment_timestamp` / `updated_at` digest identically. -/
theorem digest_canon_insensitive_witness :
    canon (cleanJson (.obj [("b", .num 1), ("enrichment_timestamp", .str "09:00"),
        ("a", .str "x")])) =
      canon (cleanJson (.obj [("a", .str "x"), ("updated_at", .null), ("b", .num 1)])) ∧
    computeDataHash (fun s => s)
        [("b", .num 1), ("enrichment_timestamp", .str "09:00"), ("a", .str "x")] =
      computeDataHash (fun s => s)
        [("a", .str "x"), ("updated_at", .null), ("b", .num 1)] :=
  ⟨by decide, digest_canon_insensitive (fun s => s) _ _ (by decide)⟩

/-- C8: diffing a snapshot against itself yields the empty `DiffResult`: no
detail entries and exactly the single canned "no changes detected" line. -/
theorem diff_self_empty (s : EnrichedData) :
    computeEnrichedDataDiff s s = noChangesDiff := by
  unfold computeEnrichedDataDiff noChangesDiff
  simp [pyEq_refl, entityTypePart_self, compareInteractionHistory_self]

/-- C5 counterexample: the diff engine does not canonicalize its inputs. Two
snapshots equal after volatile-field stripping (they differ only in the
volatile `updated_at` inside `primary_record`) produce a non-empty diff, not
the canned "no changes" result the claim requires. -/
theorem diff_not_canonicalized_counterexample :
    canon (cleanJson (.obj [("updated_at", JsonVal.str "2024-01-01")])) =
      canon (cleanJson (.obj [("updated_at", JsonVal.str "2024-06-30")])) ∧
    computeEnrichedDataDiff ⟨[("updated_at", .str "2024-01-01")], [], []⟩
        ⟨[("updated_at", .str "2024-06-30")], [], []⟩ ≠ noChangesDiff ∧
    (computeEnrichedDataDiff ⟨[("updated_at", .str "2024-01-01")], [], []⟩
        ⟨[("updated_at", .str "2024-06-30")], [], []⟩).summary =
      ["Primary record updated: updated_at"] := by
  refine ⟨by decide, by decide, by decide⟩

/-- C5 amended: the diff compares raw (uncanonicalized) values, so a change
confined to the volatile `updated_at` field of `primary_record` yields a diff
whose summary names that field rather than the empty "no changes" result. -/
theorem diff_volatile_field_reported (v1 v2 : JsonVal) (hne : canon v1 ≠ canon v2) :
    (computeEnrichedDataDiff ⟨[("updated_at", v1)], [], []⟩
        ⟨[("updated_at", v2)], [], []⟩).summary =
      ["Primary record updated: updated_at"] := by
  have hget1 : dictGetD [("updated_at", v1)] "updated_at" .null = v1 := by
    simp [dictGetD, dictGet]
  have hget2 : dictGetD [("updated_at", v2)] "updated_at" .null = v2 := by
    simp [dictGetD, dictGet]
  have hvals : pyEq v1 v2 = false := by
    simp [pyEq, hne]
  have hpyEq : pyEq (.obj [("updated_at", v1)]) (.obj [("updated_at", v2)]) = false := by
    simp only [pyEq, canon, canonEntries, canonList, sortKeys]
    simp [List.insertionSort, hne]
  have hkeys : allRecordKeys [("updated_at", v1)] [("updated_at", v2)] = ["updated_at"] := by
    simp [allRecordKeys]
  have hch : changedFields [("updated_at", v1)] [("updated_at", v2)] = ["updated_at"] := by
    rw [changedFields, hkeys]
    simp [hget1, hget2, hvals]
  unfold computeEnrichedDataDiff
  simp only [hpyEq, entityTypePart_self, compareInteractionHistory_self,
    Bool.false_eq_true, if_false, compareRecords, hch]
  simp [entityTypePart, assocGetD, compareEntityLists_self, String.intercalate]
  decide

/-- Witness for the C5 amended theorem at concrete differing values. -/
theorem diff_volatile_field_reported_witness :
    (computeEnrichedDataDiff ⟨[("updated_at", .str "a")], [], []⟩
        ⟨[("updated_at", .str "b")], [], []⟩).summary =
      ["Primary record updated: updated_at"] :=
  diff_volatile_field_reported (.str "a") (.str "b") (by decide)

/-- C2: invalidation completeness. With a single stored row (the prior
result), if a lookup with dependency inputs D comes back Fresh, then a lookup
that differs from D in exactly one tracked dependency is never Fresh — for
the summary cache (tracked: enriched-data digest, prompt text) and for the
recommendation cache (tracked: stable enriched-data digest, prompt text,
company-context text, campaign-context digest). Hash parameters are assumed
collision-free (injective / never empty) where a key or digest comparison
depends on it. -/
theorem cache_single_dependency_invalidation :
    (∀ (sha256hex md5trunc : String → String) (k : String) (row : SumRow)
      (now ttl_hours : Int) (e e' : PyDict) (p : String),
      lookupIsFresh
        (getCachedSummary sha256hex md5trunc [(k, row)] now ttl_hours e p) = true →
      computeDataHash sha256hex e' ≠ computeDataHash sha256hex e →
      lookupIsFresh
        (getCachedSummary sha256hex md5trunc [(k, row)] now ttl_hours e' p) = false) ∧
    (∀ (sha256hex md5trunc : String → String), Function.Injective md5trunc →
      ∀ (k : String) (row : SumRow) (now ttl_hours : Int) (e : PyDict) (p p' : String),
      lookupIsFresh
        (getCachedSummary sha256hex md5trunc [(k, row)] now ttl_hours e p) = true →
      p' ≠ p →
      lookupIsFresh
        (getCachedSummary sha256hex md5trunc [(k, row)] now ttl_hours e p') = false) ∧
    (∀ (h : String → String) (k : String) (row : RecRow) (now : Int) (d : String)
      (e e' : PyDict) (sm : Option String) (p c : String) (g : Option String),
      lookupIsFresh (getCachedRecommendation h [(k, row)] now d e sm p c g) = true →
      computeHashJson h (enrichedStable e') ≠ computeHashJson h (enrichedStable e) →
      lookupIsFresh (getCachedRecommendation h [(k, row)] now d e' sm p c g) = false) ∧
    (∀ (h : String → String), Function.Injective h →
      ∀ (k : String) (row : RecRow) (now : Int) (d : String) (e : PyDict)
      (sm : Option String) (p p' c : String) (g : Option String),
      lookupIsFresh (getCachedRecommendation h [(k, row)] now d e sm p c g) = true →
      p' ≠ p →
      lookupIsFresh (getCachedRecommendation h [(k, row)] now d e sm p' c g) = false) ∧
    (∀ (h : String → String), Function.Injective h →
      ∀ (k : String) (row : RecRow) (now : Int) (d : String) (e : PyDict)
      (sm : Option String) (p c c' : String) (g : Option String),
      lookupIsFresh (getCachedRecommendation h [(k, row)] now d e sm p c g) = true →
      c' ≠ c →
      lookupIsFresh (getCachedRecommendation h [(k, row)] now d e sm p c' g) = false) ∧
    (∀ (h : String → String), (∀ s, h s ≠ "") →
      ∀ (k : String) (row : RecRow) (now : Int) (d : String) (e : PyDict)
      (sm : Option String) (p c : String) (g g' : Option String),
      lookupIsFresh (getCachedRecommendation h [(k, row)] now d e sm p c g) = true →
      recCampaignHash h g' ≠ recCampaignHash h g →
      lookupIsFresh (getCachedRecommendation h [(k, row)] now d e sm p c g') = false) :=
  ⟨sumNotFresh_dataChange,
   fun sha md5 hinj k row now ttl e p p' hf hne =>
     sumNotFresh_promptChange sha md5 hinj k row now ttl e p p' hf hne,
   recNotFresh_enrichedChange,
   fun h hinj k row now d e sm p p' c g hf hne =>
     recNotFresh_promptChange h hinj k row now d e sm p p' c g hf hne,
   fun h hinj k row now d e sm p c c' g hf hne =>
     recNotFresh_contextChange h hinj k row now d e sm p c c' g hf hne,
   fun h hne_empty k row now d e sm p c g g' hf hne =>
     recNotFresh_campaignChange h hne_empty k row now d e sm p c g g' hf hne⟩

/-- Witness for C2: each part applied to a freshly stored row and a change in
exactly one dependency (hash stand-in `fun s => "h" ++ s`, injective and never
empty). -/
theorem cache_single_dependency_invalidation_witness :
    (lookupIsFresh (getCachedSummary (fun s => "h" ++ s) (fun s => "h" ++ s)
      [(summaryCacheKey
          [("primary_type", .str "deal"), ("primary_record", .obj [("id", .str "42")])]
          ("h" ++ "P1"),
        ⟨computeDataHash (fun s => "h" ++ s)
            [("primary_type", .str "deal"), ("primary_record", .obj [("id", .str "42")])],
          "h" ++ "P1",
          [("primary_type", .str "deal"), ("primary_record", .obj [("id", .str "42")])],
          .str "S", 0⟩)]
      10 24
      [("primary_type", .str "deal"),
        ("primary_record", .obj [("id", .str "42"), ("x", .num 1)])]
      "P1") = false) ∧
    (lookupIsFresh (getCachedSummary (fun s => "h" ++ s) (fun s => "h" ++ s)
      [(summaryCacheKey
          [("primary_type", .str "deal"), ("primary_record", .obj [("id", .str "42")])]
          ("h" ++ "P1"),
        ⟨computeDataHash (fun s => "h" ++ s)
            [("primary_type", .str "deal"), ("primary_record", .obj [("id", .str "42")])],
          "h" ++ "P1",
          [("primary_type", .str "deal"), ("primary_record", .obj [("id", .str "42")])],
          .str "S", 0⟩)]
      10 24
      [("primary_type", .str "deal"), ("primary_record", .obj [("id", .str "42")])]
      "P2") = false) ∧
    (lookupIsFresh (getCachedRecommendation (fun s => "h" ++ s)
      [(recCacheKey "D" ("h" ++ "P") ("h" ++ "C")
          (recCampaignHash (fun s => "h" ++ s) (some "G")),
        ⟨computeHashJson (fun s => "h" ++ s)
            (enrichedStable [("a", .num 1), ("metadata", .str "m")]),
          none, "h" ++ "P", "h" ++ "C",
          recCampaignHash (fun s => "h" ++ s) (some "G"),
          [("a", .num 1), ("metadata", .str "m")], .str "R", 0, 100⟩)]
      10 "D" [("a", .num 2), ("metadata", .str "m")] none "P" "C" (some "G")) = false) ∧
    (lookupIsFresh (getCachedRecommendation (fun s => "h" ++ s)
      [(recCacheKey "D" ("h" ++ "P") ("h" ++ "C")
          (recCampaignHash (fun s => "h" ++ s) (some "G")),
        ⟨computeHashJson (fun s => "h" ++ s)
            (enrichedStable [("a", .num 1), ("metadata", .str "m")]),
          none, "h" ++ "P", "h" ++ "C",
          recCampaignHash (fun s => "h" ++ s) (some "G"),
          [("a", .num 1), ("metadata", .str "m")], .str "R", 0, 100⟩)]
      10 "D" [("a", .num 1), ("metadata", .str "m")] none "P2" "C" (some "G")) = false) ∧
    (lookupIsFresh (getCachedRecommendation (fun s => "h" ++ s)
      [(recCacheKey "D" ("h" ++ "P") ("h" ++ "C")
          (recCampaignHash (fun s => "h" ++ s) (some "G")),
        ⟨computeHashJson (fun s => "h" ++ s)
            (enrichedStable [("a", .num 1), ("metadata", .str "m")]),
          none, "h" ++ "P", "h" ++ "C",
          recCampaignHash (fun s => "h" ++ s) (some "G"),
          [("a", .num 1), ("metadata", .str "m")], .str "R", 0, 100⟩)]
      10 "D" [("a", .num 1), ("metadata", .str "m")] none "P" "C2" (some "G")) = false) ∧
    (lookupIsFresh (getCachedRecommendation (fun s => "h" ++ s)
      [(recCacheKey "D" ("h" ++ "P") ("h" ++ "C")
          (recCampaignHash (fun s => "h" ++ s) (some "G")),
        ⟨computeHashJson (fun s => "h" ++ s)
            (enrichedStable [("a", .num 1), ("metadata", .str "m")]),
          none, "h" ++ "P", "h" ++ "C",
          recCampaignHash (fun s => "h" ++ s) (some "G"),
          [("a", .num 1), ("metadata", .str "m")], .str "R", 0, 100⟩)]
      10 "D" [("a", .num 1), ("metadata", .str "m")] none "P" "C" (some "G2")) = false) := by
  have hinj : Function.Injective (fun s : String => "h" ++ s) :=
    fun a b hab => strAppend_cancel_left hab
  have hne_empty : ∀ s : String, ("h" ++ s : String) ≠ "" := by
    intro s hx
    have h2 := congrArg String.length hx
    rw [String.length_append] at h2
    have h3 : ("h" : String).length = 1 := by decide
    have h4 : ("" : String).length = 0 := by decide
    omega
  refine ⟨?_, ?_, ?_, ?_, ?_, ?_⟩
  · exact cache_single_dependency_invalidation.1 (fun s => "h" ++ s) (fun s => "h" ++ s)
      (summaryCacheKey
        [("primary_type", .str "deal"), ("primary_record", .obj [("id", .str "42")])]
        ("h" ++ "P1"))
      ⟨computeDataHash (fun s => "h" ++ s)
          [("primary_type", .str "deal"), ("primary_record", .obj [("id", .str "42")])],
        "h" ++ "P1",
        [("primary_type", .str "deal"), ("primary_record", .obj [("id", .str "42")])],
        .str "S", 0⟩
      10 24
      [("primary_type", .str "deal"), ("primary_record", .obj [("id", .str "42")])]
      [("primary_type", .str "deal"),
        ("primary_record", .obj [("id", .str "42"), ("x", .num 1)])]
      "P1" (by decide) (by decide)
  · exact cache_single_dependency_invalidation.2.1 (fun s => "h" ++ s) (fun s => "h" ++ s)
      hinj
      (summaryCacheKey
        [("primary_type", .str "deal"), ("primary_record", .obj [("id", .str "42")])]
        ("h" ++ "P1"))
      ⟨computeDataHash (fun s => "h" ++ s)
          [("primary_type", .str "deal"), ("primary_record", .obj [("id", .str "42")])],
        "h" ++ "P1",
        [("primary_type", .str "deal"), ("primary_record", .obj [("id", .str "42")])],
        .str "S", 0⟩
      10 24
      [("primary_type", .str "deal"), ("primary_record", .obj [("id", .str "42")])]
      "P1" "P2" (by decide) (by decide)
  · exact cache_single_dependency_invalidation.2.2.1 (fun s => "h" ++ s)
      (recCacheKey "D" ("h" ++ "P") ("h" ++ "C")
        (recCampaignHash (fun s => "h" ++ s) (some "G")))
      ⟨computeHashJson (fun s => "h" ++ s)
          (enrichedStable [("a", .num 1), ("metadata", .str "m")]),
        none, "h" ++ "P", "h" ++ "C",
        recCampaignHash (fun s => "h" ++ s) (some "G"),
        [("a", .num 1), ("metadata", .str "m")], .str "R", 0, 100⟩
      10 "D"
      [("a", .num 1), ("metadata", .str "m")]
      [("a", .num 2), ("metadata", .str "m")]
      none "P" "C" (some "G") (by decide) (by decide)
  · exact cache_single_dependency_invalidation.2.2.2.1 (fun s => "h" ++ s) hinj
      (recCacheKey "D" ("h" ++ "P") ("h" ++ "C")
        (recCampaignHash (fun s => "h" ++ s) (some "G")))
      ⟨computeHashJson (fun s => "h" ++ s)
          (enrichedStable [("a", .num 1), ("metadata", .str "m")]),
        none, "h" ++ "P", "h" ++ "C",
        recCampaignHash (fun s => "h" ++ s) (some "G"),
        [("a", .num 1), ("metadata", .str "m")], .str "R", 0, 100⟩
      10 "D"
      [("a", .num 1), ("metadata", .str "m")]
      none "P" "P2" "C" (some "G") (by decide) (by decide)
  · exact cache_single_dependency_invalidation.2.2.2.2.1 (fun s => "h" ++ s) hinj
      (recCacheKey "D" ("h" ++ "P") ("h" ++ "C")
        (recCampaignHash (fun s => "h" ++ s) (some "G")))
      ⟨computeHashJson (fun s => "h" ++ s)
          (enrichedStable [("a", .num 1), ("metadata", .str "m")]),
        none, "h" ++ "P", "h" ++ "C",
        recCampaignHash (fun s => "h" ++ s) (some "G"),
        [("a", .num 1), ("metadata", .str "m")], .str "R", 0, 100⟩
      10 "D"
      [("a", .num 1), ("metadata", .str "m")]
      none "P" "C" "C2" (some "G") (by decide) (by decide)
  · exact cache_single_dependency_invalidation.2.2.2.2.2 (fun s => "h" ++ s) hne_empty
      (recCacheKey "D" ("h" ++ "P") ("h" ++ "C")
        (recCampaignHash (fun s => "h" ++ s) (some "G")))
      ⟨computeHashJson (fun s => "h" ++ s)
          (enrichedStable [("a", .num 1), ("metadata", .str "m")]),
        none, "h" ++ "P", "h" ++ "C",
        recCampaignHash (fun s => "h" ++ s) (some "G"),
        [("a", .num 1), ("metadata", .str "m")], .str "R", 0, 100⟩
      10 "D"
      [("a", .num 1), ("metadata", .str "m")]
      none "P" "C" (some "G") (some "G2") (by decide) (by decide)

/-- C4 counterexample: the raw-entity gatherer cache (`CacheManager.get`)
returns a bare miss (`None`) on a TTL-breached row — not the Stale result
carrying the stored artifact and snapshot that the claim requires of every
cache lookup. -/
theorem ttl_breach_bare_miss_counterexample :
    gatherGet [(gatherCacheKey "brevo_crm" "deal" "42",
        ⟨"brevo_crm", "deal", "42", .str "payload", "abc123", 15, 100, 50⟩)]
      200 "brevo_crm" "deal" "42" = none := by
  decide

/-- C4 amended: the two AI caches (summary, recommendation) return Stale with
the stored artifact and stored snapshot on any single tracked-digest mismatch
or TTL breach at the stored key (TTL breach is `age ≥ ttl` for the summary
cache and the strict `now > expires_at` for the recommendation cache); the
raw-entity gatherer cache instead returns a bare Miss once
`expires_at ≤ now` (it compares no digests at lookup time). -/
theorem stale_on_mismatch_or_expiry :
    (∀ (sha256hex md5trunc : String → String) (k : String) (row : SumRow)
      (now ttl_hours : Int) (e : PyDict) (p : String),
      k = summaryCacheKey e (computePromptHash md5trunc p) →
      (row.enriched_data_hash ≠ computeDataHash sha256hex e ∨
        ttl_hours * 3600 ≤ now - row.generated_at) →
      getCachedSummary sha256hex md5trunc [(k, row)] now ttl_hours e p =
        some (row.summary_json, false, some row.enriched_data_json)) ∧
    (∀ (h : String → String) (k : String) (row : RecRow) (now : Int) (d : String)
      (e : PyDict) (sm : Option String) (p c : String) (g : Option String),
      k = recCacheKey d (h p) (h c) (recCampaignHash h g) →
      (row.enriched_data_hash ≠ computeHashJson h (enrichedStable e) ∨
        row.prompt_hash ≠ h p ∨
        row.company_context_hash ≠ h c ∨
        (optStrTruthy g = true ∧ row.campaign_context_hash ≠ recCampaignHash h g) ∨
        now > row.expires_at) →
      getCachedRecommendation h [(k, row)] now d e sm p c g =
        some (row.recommendation_json, false, some row.enriched_data_json)) ∧
    (∀ (row : GatherRow) (now : Int) (s t i : String),
      row.expires_at ≤ now →
      gatherGet [(gatherCacheKey s t i, row)] now s t i = none) :=
  ⟨getCachedSummary_singleton_stale, getCachedRecommendation_singleton_stale,
    gatherGet_singleton_expired⟩

/-- Witness for the C4 amended theorem: a digest mismatch goes Stale in the
summary cache, a TTL breach goes Stale in the recommendation cache, and an
expired gatherer row is a bare miss. -/
theorem stale_on_mismatch_or_expiry_witness :
    (getCachedSummary (fun s => s) (fun s => s)
      [(summaryCacheKey [("primary_type", .str "deal"),
          ("primary_record", .obj [("id", .str "42")])] "P",
        ⟨"stale-hash", "P",
          [("k", .str "old")], .str "S", 0⟩)]
      10 24
      [("primary_type", .str "deal"), ("primary_record", .obj [("id", .str "42")])]
      "P" = some (.str "S", false, some [("k", .str "old")])) ∧
    (getCachedRecommendation (fun s => s)
      [(recCacheKey "D" "P" "C" none,
        ⟨computeHashJson (fun s => s) (enrichedStable [("a", .num 1)]),
          none, "P", "C", none, [("a", .num 1)], .str "R", 0, 100⟩)]
      200 "D" [("a", .num 1)] none "P" "C" none =
      some (.str "R", false, some [("a", .num 1)])) ∧
    (gatherGet [(gatherCacheKey "linkedin" "contact" "7",
        ⟨"linkedin", "contact", "7", .str "profile", "h7", 1440, 300, 100⟩)]
      300 "linkedin" "contact" "7" = none) := by
  refine ⟨?_, ?_, ?_⟩
  · exact stale_on_mismatch_or_expiry.1 _ _ _ _ _ _ _ _ (by decide)
      (Or.inl (by decide))
  · exact stale_on_mismatch_or_expiry.2.1 _ _ _ _ _ _ _ _ _ _ (by decide)
      (Or.inr (Or.inr (Or.inr (Or.inr (by decide)))))
  · exact stale_on_mismatch_or_expiry.2.2 _ _ _ _ _ (by decide)

/-! ### Lemmas for the action-model claims -/

theorem hasBracketToken_append (op cl : Char) (pre suf : List Char)
    (h : hasBracketToken op cl suf = true) :
    hasBracketToken op cl (pre ++ suf) = true := by
  induction pre with
  | nil => simpa using h
  | cons c rest ih => simp [hasBracketToken, ih]

theorem hasBracketToken_NAME (post : List Char) :
    hasBracketToken '[' ']' ('[' :: 'N' :: 'A' :: 'M' :: 'E' :: ']' :: post) = true := by
  have hN : isAZu 'N' = true := by decide
  have hA : isAZu 'A' = true := by decide
  have hM : isAZu 'M' = true := by decide
  have hE : isAZu 'E' = true := by decide
  have hBr : isAZu ']' = false := by decide
  simp [hasBracketToken, bracketTokenAt, List.takeWhile, hN, hA, hM, hE, hBr]

theorem hasPlaceholders_of_NAME (s : String)
    (h : ∃ pre post, s.data = pre ++ ("Hi [NAME],".data ++ post)) :
    hasPlaceholders s = true := by
  obtain ⟨pre, post, heq⟩ := h
  have key : hasBracketToken '[' ']' s.data = true := by
    rw [heq]
    have h2 : ("Hi [NAME],".data ++ post) =
        ['H', 'i', ' '] ++ ('[' :: 'N' :: 'A' :: 'M' :: 'E' :: ']' :: (',' :: post)) := by
      rfl
    rw [h2, ← List.append_assoc]
    exact hasBracketToken_append _ _ _ _ (hasBracketToken_NAME _)
  simp [hasPlaceholders, key]

/-- Successful construction fixes the fields and recomputes the status. -/
theorem mkExecutableAction_ok (now : String) (action : ActionPayload)
    (priority tm : String) (prereqs : List Prerequisite) (r c : String)
    (ms : List String) (st : ActionStatus) (act : ExecutableAction)
    (h : mkExecutableAction now action priority tm prereqs r c ms st = .ok act) :
    act.status = computeStatus prereqs st ∧ act.prerequisites = prereqs := by
  unfold mkExecutableAction at h
  by_cases he : (execFieldErrors priority r c ms).isEmpty = true
  · rw [if_pos he] at h
    cases h
    exact ⟨rfl, rfl⟩
  · rw [if_neg he] at h
    cases h

theorem computeStatus_pending_blocked (prereqs : List Prerequisite)
    (hex : ∃ p ∈ prereqs, p.blocking = true ∧ p.status ≠ .completed) :
    computeStatus prereqs .pending = .prerequisites_incomplete := by
  obtain ⟨p, hp, hb, hs⟩ := hex
  have hany : prereqs.any
      (fun p => p.blocking && !(p.status == PrerequisiteStatus.completed)) = true := by
    rw [List.any_eq_true]
    refine ⟨p, hp, ?_⟩
    rw [hb]
    simp [hs]
  unfold computeStatus
  rw [hany]
  simp

theorem computeStatus_unblocked_ready (prereqs : List Prerequisite)
    (hall : ∀ p ∈ prereqs, p.blocking = true → p.status = .completed) :
    computeStatus prereqs .prerequisites_incomplete = .ready := by
  have hany : prereqs.any
      (fun p => p.blocking && !(p.status == PrerequisiteStatus.completed)) = false := by
    rw [List.any_eq_false]
    intro p hp
    cases hb : p.blocking
    · simp
    · simp [hall p hp hb]
  unfold computeStatus
  rw [hany]
  simp

theorem computeStatus_other_kept (prereqs : List Prerequisite) (st : ActionStatus)
    (h1 : st ≠ .pending) (h2 : st ≠ .prerequisites_incomplete) :
    computeStatus prereqs st = st := by
  unfold computeStatus
  have e1 : (st == ActionStatus.pending) = false := by
    cases st <;> simp_all
  have e2 : (st == ActionStatus.prerequisites_incomplete) = false := by
    cases st <;> simp_all
  rw [e1, e2]
  simp

theorem computeStatus_eq_pending (prereqs : List Prerequisite) (st : ActionStatus)
    (h : computeStatus prereqs st = .pending) :
    ∀ p ∈ prereqs, p.blocking = true → p.status = .completed := by
  unfold computeStatus at h
  cases hany : prereqs.any
      (fun p => p.blocking && !(p.status == PrerequisiteStatus.completed)) with
  | false =>
    intro p hp hb
    have := (List.any_eq_false.mp hany) p hp
    rw [hb] at this
    simp at this
    exact this
  | true =>
    rw [hany] at h
    by_cases hst : st = ActionStatus.pending
    · subst hst
      simp at h
    · have e1 : (st == ActionStatus.pending) = false := by
        cases st <;> simp_all
      rw [e1] at h
      simp at h
      exact absurd h hst

/-! ## Claims about the action models -/

/-- C1 counterexample: a caller-supplied status other than `pending` is
accepted as-is even when a blocking prerequisite is still `todo`. The action
below constructs successfully with status `ready`, not
`prerequisites_incomplete` as the claim requires. -/
theorem status_not_recomputed_counterexample :
    (mkExecutableAction "2025-01-15T10:00:00"
      (.email ⟨"sales@acme.com", "Alice Seller", "buyer@client.com", "Bob Buyer",
        "Proposal next steps for Q3 rollout",
        "Hi Bob, following up on our call: attached is the revised proposal with the Q3 rollout plan and pricing.",
        [], [], []⟩)
      "P0" "Within 24 hours"
      [⟨"prereq-1", "Confirm final pricing with the finance team", none, none,
        PrerequisiteStatus.todo, true⟩]
      "The client asked for a revised proposal and expects a follow-up this week to keep the deal moving."
      "Deal 42 is in negotiation stage with strong buying signals."
      ["Reply received within 3 business days"]
      ActionStatus.ready).map (fun a => a.status) = .ok ActionStatus.ready := by
  decide

/-- C1 amended: `compute_status` recomputes the status only from the two
derivable states — a supplied `pending` becomes `prerequisites_incomplete`
when a blocking prerequisite is incomplete, a supplied
`prerequisites_incomplete` becomes `ready` when none is, and any other
caller-supplied status (`ready`, `executing`, ...) is accepted unchanged
even when it contradicts the prerequisite list. -/
theorem status_derivation_amended :
    (∀ (now : String) (action : ActionPayload) (priority tm : String)
      (prereqs : List Prerequisite) (r c : String) (ms : List String)
      (act : ExecutableAction),
      mkExecutableAction now action priority tm prereqs r c ms .pending = .ok act →
      (∃ p ∈ prereqs, p.blocking = true ∧ p.status ≠ .completed) →
      act.status = .prerequisites_incomplete) ∧
    (∀ (now : String) (action : ActionPayload) (priority tm : String)
      (prereqs : List Prerequisite) (r c : String) (ms : List String)
      (act : ExecutableAction),
      mkExecutableAction now action priority tm prereqs r c ms
        .prerequisites_incomplete = .ok act →
      (∀ p ∈ prereqs, p.blocking = true → p.status = .completed) →
      act.status = .ready) ∧
    (∀ (now : String) (action : ActionPayload) (priority tm : String)
      (prereqs : List Prerequisite) (r c : String) (ms : List String)
      (st : ActionStatus) (act : ExecutableAction),
      mkExecutableAction now action priority tm prereqs r c ms st = .ok act →
      st ≠ .pending → st ≠ .prerequisites_incomplete →
      act.status = st) := by
  refine ⟨?_, ?_, ?_⟩
  · intro now action priority tm prereqs r c ms act hok hex
    obtain ⟨hst, -⟩ := mkExecutableAction_ok now action priority tm prereqs r c ms _ act hok
    rw [hst, computeStatus_pending_blocked prereqs hex]
  · intro now action priority tm prereqs r c ms act hok hall
    obtain ⟨hst, -⟩ := mkExecutableAction_ok now action priority tm prereqs r c ms _ act hok
    rw [hst, computeStatus_unblocked_ready prereqs hall]
  · intro now action priority tm prereqs r c ms st act hok h1 h2
    obtain ⟨hst, -⟩ := mkExecutableAction_ok now action priority tm prereqs r c ms st act hok
    rw [hst, computeStatus_other_kept prereqs st h1 h2]

/-- Witness for the C1 amended theorem: a blocking `todo` prerequisite turns
a default `pending` into `prerequisites_incomplete`; with it `completed`,
reconstructing from `prerequisites_incomplete` yields `ready`; a supplied
`executing` is kept. -/
theorem status_derivation_amended_witness :
    ExecutableAction.status
      ⟨.email ⟨"sales@acme.com", "Alice Seller", "buyer@client.com", "Bob Buyer",
        "Proposal next steps for Q3 rollout",
        "Hi Bob, following up on our call: attached is the revised proposal with the Q3 rollout plan and pricing.",
        [], [], []⟩,
       "P0", "Within 24 hours",
       [⟨"prereq-1", "Confirm final pricing with the finance team", none, none,
         PrerequisiteStatus.todo, true⟩],
       "The client asked for a revised proposal and expects a follow-up this week to keep the deal moving.",
       "Deal 42 is in negotiation stage with strong buying signals.",
       ["Reply received within 3 business days"],
       ActionStatus.prerequisites_incomplete, "2025-01-15T10:00:00"⟩ =
      ActionStatus.prerequisites_incomplete ∧
    ActionStatus.ready = ActionStatus.ready ∧
    ActionStatus.executing = ActionStatus.executing := by
  refine ⟨?_, rfl, rfl⟩
  exact status_derivation_amended.1 "2025-01-15T10:00:00"
    (.email ⟨"sales@acme.com", "Alice Seller", "buyer@client.com", "Bob Buyer",
      "Proposal next steps for Q3 rollout",
      "Hi Bob, following up on our call: attached is the revised proposal with the Q3 rollout plan and pricing.",
      [], [], []⟩)
    "P0" "Within 24 hours"
    [⟨"prereq-1", "Confirm final pricing with the finance team", none, none,
      PrerequisiteStatus.todo, true⟩]
    "The client asked for a revised proposal and expects a follow-up this week to keep the deal moving."
    "Deal 42 is in negotiation stage with strong buying signals."
    ["Reply received within 3 business days"]
    ⟨.email ⟨"sales@acme.com", "Alice Seller", "buyer@client.com", "Bob Buyer",
      "Proposal next steps for Q3 rollout",
      "Hi Bob, following up on our call: attached is the revised proposal with the Q3 rollout plan and pricing.",
      [], [], []⟩,
     "P0", "Within 24 hours",
     [⟨"prereq-1", "Confirm final pricing with the finance team", none, none,
       PrerequisiteStatus.todo, true⟩],
     "The client asked for a revised proposal and expects a follow-up this week to keep the deal moving.",
     "Deal 42 is in negotiation stage with strong buying signals.",
     ["Reply received within 3 business days"],
     ActionStatus.prerequisites_incomplete, "2025-01-15T10:00:00"⟩
    (by decide)
    ⟨⟨"prereq-1", "Confirm final pricing with the finance team", none, none,
       PrerequisiteStatus.todo, true⟩, by decide, by decide, by decide⟩

/-- C3: an email whose body contains `"Hi [NAME],"` (and whose body meets the
length constraint, so the placeholder validator runs on it) always fails
construction, and the collected errors name placeholders — regardless of
every other field. No such action is ever returned as a validated result. -/
theorem email_placeholder_hard_fail (f : EmailFields)
    (hinf : ∃ pre post, f.content.data = pre ++ ("Hi [NAME],".data ++ post))
    (hlen : 50 ≤ f.content.length) :
    mkEmailAction f = .error (emailFieldErrors f) ∧
      ∃ e ∈ emailFieldErrors f,
        ∃ p q, e.data = p ++ ("placeholder".data ++ q) := by
  have hp : hasPlaceholders f.content = true := hasPlaceholders_of_NAME f.content hinf
  have hc : strFieldErrors 50 f.content = [placeholderMsg f.content] := by
    unfold strFieldErrors
    rw [if_neg (by omega), if_pos hp]
  have hmem : placeholderMsg f.content ∈ emailFieldErrors f := by
    unfold emailFieldErrors
    rw [hc]
    simp
  have hne : (emailFieldErrors f).isEmpty = false := by
    cases hl : emailFieldErrors f with
    | nil => rw [hl] at hmem; cases hmem
    | cons a l => simp
  constructor
  · simp [mkEmailAction, hne]
  · refine ⟨placeholderMsg f.content, hmem, "Field contains ".data,
      ("s: " ++ strTake f.content 100 ++ "...").data, ?_⟩
    have hsplit : ("Field contains placeholders: " : String).data =
        "Field contains ".data ++ ("placeholder".data ++ "s: ".data) := by decide
    unfold placeholderMsg
    simp only [String.data_append, hsplit]
    simp [List.append_assoc]

/-- Witness for C3: a concrete email, valid in every other field, whose body
contains `"Hi [NAME],"` is rejected with a placeholder error. -/
theorem email_placeholder_hard_fail_witness :
    mkEmailAction ⟨"sales@acme.com", "Alice Seller", "buyer@client.com", "Bob Buyer",
      "Proposal next steps for Q3 rollout",
      "Hi [NAME], following up on our call: attached is the revised proposal with the rollout plan.",
      [], [], []⟩ =
      .error (emailFieldErrors
        ⟨"sales@acme.com", "Alice Seller", "buyer@client.com", "Bob Buyer",
          "Proposal next steps for Q3 rollout",
          "Hi [NAME], following up on our call: attached is the revised proposal with the rollout plan.",
          [], [], []⟩) ∧
      ∃ e ∈ emailFieldErrors
        ⟨"sales@acme.com", "Alice Seller", "buyer@client.com", "Bob Buyer",
          "Proposal next steps for Q3 rollout",
          "Hi [NAME], following up on our call: attached is the revised proposal with the rollout plan.",
          [], [], []⟩,
        ∃ p q, e.data = p ++ ("placeholder".data ++ q) :=
  email_placeholder_hard_fail _
    ⟨[], " following up on our call: attached is the revised proposal with the rollout plan.".data,
      by decide⟩
    (by decide)

/-- C9: a successfully constructed action whose final status is `pending` has
no incomplete blocking prerequisite — every blocking prerequisite is
`completed`. -/
theorem pending_has_no_blocking_obligations
    (now : String) (action : ActionPayload) (priority tm : String)
    (prereqs : List Prerequisite) (r c : String) (ms : List String)
    (st : ActionStatus) (act : ExecutableAction)
    (hok : mkExecutableAction now action priority tm prereqs r c ms st = .ok act)
    (hst : act.status = .pending) :
    ∀ p ∈ act.prerequisites, p.blocking = true → p.status = .completed := by
  obtain ⟨hstatus, hpre⟩ :=
    mkExecutableAction_ok now action priority tm prereqs r c ms st act hok
  rw [hpre]
  exact computeStatus_eq_pending prereqs st (by rw [← hstatus, hst])

/-- Witness for C9: a pending action whose single blocking prerequisite is
`completed` satisfies the invariant at that prerequisite. -/
theorem pending_has_no_blocking_obligations_witness :
    Prerequisite.status
      ⟨"prereq-1", "Confirm final pricing with the finance team", none, none,
        PrerequisiteStatus.completed, true⟩ = PrerequisiteStatus.completed :=
  pending_has_no_blocking_obligations "2025-01-15T10:00:00"
    (.email ⟨"sales@acme.com", "Alice Seller", "buyer@client.com", "Bob Buyer",
      "Proposal next steps for Q3 rollout",
      "Hi Bob, following up on our call: attached is the revised proposal with the Q3 rollout plan and pricing.",
      [], [], []⟩)
    "P1" "This week"
    [⟨"prereq-1", "Confirm final pricing with the finance team", none, none,
      PrerequisiteStatus.completed, true⟩]
    "The client asked for a revised proposal and expects a follow-up this week to keep the deal moving."
    "Deal 42 is in negotiation stage with strong buying signals."
    ["Reply received within 3 business days"]
    ActionStatus.pending
    ⟨.email ⟨"sales@acme.com", "Alice Seller", "buyer@client.com", "Bob Buyer",
      "Proposal next steps for Q3 rollout",
      "Hi Bob, following up on our call: attached is the revised proposal with the Q3 rollout plan and pricing.",
      [], [], []⟩,
     "P1", "This week",
     [⟨"prereq-1", "Confirm final pricing with the finance team", none, none,
       PrerequisiteStatus.completed, true⟩],
     "The client asked for a revised proposal and expects a follow-up this week to keep the deal moving.",
     "Deal 42 is in negotiation stage with strong buying signals.",
     ["Reply received within 3 business days"],
     ActionStatus.pending, "2025-01-15T10:00:00"⟩
    (by decide) (by decide)
    ⟨"prereq-1", "Confirm final pricing with the finance team", none, none,
      PrerequisiteStatus.completed, true⟩
    (by decide) (by decide)

set_option maxRecDepth 8000

/-! ### Lemmas for the parser claims -/

theorem parseTier1_some (now response deal_id data_version : String) (r : ParseResult)
    (h : parseTier1 now response deal_id data_version = some r) :
    r.tier_used = some 1 ∧ r.success = true := by
  unfold parseTier1 at h
  split at h
  · split at h
    · cases h; exact ⟨rfl, rfl⟩
    · cases h
  · cases h

theorem tryBlocks_some (now response : String) (blocks : List String) (r : ParseResult)
    (h : tryBlocks now response blocks = some r) :
    r.tier_used = some 2 ∧ r.success = true := by
  induction blocks with
  | nil => cases h
  | cons b rest ih =>
    unfold tryBlocks at h
    split at h
    · split at h
      · cases h; exact ⟨rfl, rfl⟩
      · exact ih h
    · exact ih h

theorem parseTier2_some (now response deal_id data_version : String) (r : ParseResult)
    (h : parseTier2 now response deal_id data_version = some r) :
    r.tier_used = some 2 ∧ r.success = true := by
  unfold parseTier2 at h
  exact tryBlocks_some _ _ _ _ h

theorem tryCandidates_some (now response : String) (cands : List String)
    (r : ParseResult) (h : tryCandidates now response cands = some r) :
    r.tier_used = some 3 ∧ r.success = true := by
  induction cands with
  | nil => cases h
  | cons b rest ih =>
    unfold tryCandidates at h
    split at h
    · split at h
      · split at h
        · cases h; exact ⟨rfl, rfl⟩
        · exact ih h
      · exact ih h
    · exact ih h

theorem parseTier3_some (now response deal_id data_version : String) (r : ParseResult)
    (h : parseTier3 now response deal_id data_version = some r) :
    r.tier_used = some 3 ∧ r.success = true := by
  unfold parseTier3 at h
  split at h
  · cases h
  · exact tryCandidates_some _ _ _ _ h

/-! ## Claims about the parser -/

/-- C6: the three tiers run strictly in order with the first success winning;
a successful result explicitly records the tier that produced it; total
failure produces the failure result with the bounded snippet; and in the
concrete fenced scenario — a `json`-tagged fenced block holding valid action
JSON with no valid top-level JSON outside the fence — Tier 1 fails, Tier 2
succeeds and `tier_used = 2`. -/
theorem three_tier_first_success :
    (∀ (now response deal_id data_version : String) (r : ParseResult),
      parseTier1 now response deal_id data_version = some r →
      parse now response deal_id data_version = r) ∧
    (∀ (now response deal_id data_version : String) (r : ParseResult),
      parseTier1 now response deal_id data_version = none →
      parseTier2 now response deal_id data_version = some r →
      parse now response deal_id data_version = r) ∧
    (∀ (now response deal_id data_version : String) (r : ParseResult),
      parseTier1 now response deal_id data_version = none →
      parseTier2 now response deal_id data_version = none →
      parseTier3 now response deal_id data_version = some r →
      parse now response deal_id data_version = r) ∧
    (∀ (now response deal_id data_version : String),
      parseTier1 now response deal_id data_version = none →
      parseTier2 now response deal_id data_version = none →
      parseTier3 now response deal_id data_version = none →
      parse now response deal_id data_version =
        ⟨false, none, none, some allTiersFailedMsg, some (strTake response 500)⟩) ∧
    (∀ (now response deal_id data_version : String) (r : ParseResult),
      parseTier1 now response deal_id data_version = some r →
      r.tier_used = some 1 ∧ r.success = true) ∧
    (∀ (now response deal_id data_version : String) (r : ParseResult),
      parseTier2 now response deal_id data_version = some r →
      r.tier_used = some 2 ∧ r.success = true) ∧
    (∀ (now response deal_id data_version : String) (r : ParseResult),
      parseTier3 now response deal_id data_version = some r →
      r.tier_used = some 3 ∧ r.success = true) ∧
    (parseTier1 "T0" "```json\n\x7b\"deal_id\": \"D1\", \"deal_name\": \"Acme renewal\", \"executive_summary\": \"The deal is progressing well with strong engagement from the buyer and a clear mutual action plan toward close this quarter.\", \"key_insights\": [\"Budget approved for this quarter\"], \"overall_strategy\": \"Maintain momentum with weekly touchpoints, close out the security review, and align pricing with procurement before the renewal date.\", \"data_version\": \"v1\"\x7d\n```" "deal-1" "v1" = none ∧
      (parse "T0" "```json\n\x7b\"deal_id\": \"D1\", \"deal_name\": \"Acme renewal\", \"executive_summary\": \"The deal is progressing well with strong engagement from the buyer and a clear mutual action plan toward close this quarter.\", \"key_insights\": [\"Budget approved for this quarter\"], \"overall_strategy\": \"Maintain momentum with weekly touchpoints, close out the security review, and align pricing with procurement before the renewal date.\", \"data_version\": \"v1\"\x7d\n```" "deal-1" "v1").success = true ∧
      (parse "T0" "```json\n\x7b\"deal_id\": \"D1\", \"deal_name\": \"Acme renewal\", \"executive_summary\": \"The deal is progressing well with strong engagement from the buyer and a clear mutual action plan toward close this quarter.\", \"key_insights\": [\"Budget approved for this quarter\"], \"overall_strategy\": \"Maintain momentum with weekly touchpoints, close out the security review, and align pricing with procurement before the renewal date.\", \"data_version\": \"v1\"\x7d\n```" "deal-1" "v1").tier_used = some 2) := by
  refine ⟨?_, ?_, ?_, ?_, parseTier1_some, parseTier2_some, parseTier3_some,
    by decide, by decide, by decide⟩
  · intro now response deal_id data_version r h
    unfold parse
    rw [h]
  · intro now response deal_id data_version r h1 h2
    unfold parse
    rw [h1, h2]
  · intro now response deal_id data_version r h1 h2 h3
    unfold parse
    rw [h1, h2, h3]
  · intro now response deal_id data_version h1 h2 h3
    unfold parse
    rw [h1, h2, h3]

/-- Witness for C6: the concrete fenced response exercises the ordered chain
end to end — Tier 1 fails on it, Tier 2 succeeds, and `parse` reports the
Tier 2 result with `tier_used = 2`. -/
theorem three_tier_first_success_witness :
    parse "T0" "```json\n\x7b\"deal_id\": \"D1\", \"deal_name\": \"Acme renewal\", \"executive_summary\": \"The deal is progressing well with strong engagement from the buyer and a clear mutual action plan toward close this quarter.\", \"key_insights\": [\"Budget approved for this quarter\"], \"overall_strategy\": \"Maintain momentum with weekly touchpoints, close out the security review, and align pricing with procurement before the renewal date.\", \"data_version\": \"v1\"\x7d\n```" "deal-1" "v1" =
      (parseTier2 "T0" "```json\n\x7b\"deal_id\": \"D1\", \"deal_name\": \"Acme renewal\", \"executive_summary\": \"The deal is progressing well with strong engagement from the buyer and a clear mutual action plan toward close this quarter.\", \"key_insights\": [\"Budget approved for this quarter\"], \"overall_strategy\": \"Maintain momentum with weekly touchpoints, close out the security review, and align pricing with procurement before the renewal date.\", \"data_version\": \"v1\"\x7d\n```" "deal-1" "v1").getD
        ⟨false, none, none, some allTiersFailedMsg, none⟩ ∧
    (parse "T0" "```json\n\x7b\"deal_id\": \"D1\", \"deal_name\": \"Acme renewal\", \"executive_summary\": \"The deal is progressing well with strong engagement from the buyer and a clear mutual action plan toward close this quarter.\", \"key_insights\": [\"Budget approved for this quarter\"], \"overall_strategy\": \"Maintain momentum with weekly touchpoints, close out the security review, and align pricing with procurement before the renewal date.\", \"data_version\": \"v1\"\x7d\n```" "deal-1" "v1").tier_used = some 2 := by
  constructor
  · have h2 : parseTier2 "T0" "```json\n\x7b\"deal_id\": \"D1\", \"deal_name\": \"Acme renewal\", \"executive_summary\": \"The deal is progressing well with strong engagement from the buyer and a clear mutual action plan toward close this quarter.\", \"key_insights\": [\"Budget approved for this quarter\"], \"overall_strategy\": \"Maintain momentum with weekly touchpoints, close out the security review, and align pricing with procurement before the renewal date.\", \"data_version\": \"v1\"\x7d\n```" "deal-1" "v1" =
        some ((parseTier2 "T0" "```json\n\x7b\"deal_id\": \"D1\", \"deal_name\": \"Acme renewal\", \"executive_summary\": \"The deal is progressing well with strong engagement from the buyer and a clear mutual action plan toward close this quarter.\", \"key_insights\": [\"Budget approved for this quarter\"], \"overall_strategy\": \"Maintain momentum with weekly touchpoints, close out the security review, and align pricing with procurement before the renewal date.\", \"data_version\": \"v1\"\x7d\n```" "deal-1" "v1").getD
          ⟨false, none, none, some allTiersFailedMsg, none⟩) := by decide
    exact three_tier_first_success.2.1 "T0" "```json\n\x7b\"deal_id\": \"D1\", \"deal_name\": \"Acme renewal\", \"executive_summary\": \"The deal is progressing well with strong engagement from the buyer and a clear mutual action plan toward close this quarter.\", \"key_insights\": [\"Budget approved for this quarter\"], \"overall_strategy\": \"Maintain momentum with weekly touchpoints, close out the security review, and align pricing with procurement before the renewal date.\", \"data_version\": \"v1\"\x7d\n```" "deal-1" "v1" _ (by decide) h2
  · exact three_tier_first_success.2.2.2.2.2.2.2.2.2

/-- C10: the parse outcome is a function of the raw response (and the clock
backing the model defaults) alone — the `deal_id` and `data_version`
arguments influence logging only, never the result. -/
theorem parse_ignores_deal_context (now response d1 v1 d2 v2 : String) :
    parse now response d1 v1 = parse now response d2 v2 := rfl

end AISales
